import Mathlib

/-!
Shallow embedding of the BLETinyFlow image-transfer protocol engine
(`src/BLETinyFlow/src/image_service.{h,cpp}`), together with theorems
settling the frozen claims about it.

Modelling conventions:
* Machine integers are `Nat` with explicit truncation (`u16`, `u32`) at the
  points where the C++ code stores into a `uint16_t`/`uint32_t` field or
  performs arithmetic in those types.
* The reassembly buffer (`image_buffer_`, a `malloc`ed byte array) is a
  partial byte store `Nat → Option Nat`; `none` marks a byte the engine has
  never written.  Allocation state is the outer `Option`.
* The chunk receipt map (`chunk_received_map_`, a `calloc`ed bool array) is
  `Nat → Bool` (calloc zero-initialises, i.e. `fun _ => false`).
* Outbound I/O (GATT notifications, the consumer callback, closing the
  connection, `free` calls, advertising restart) is recorded as a list of
  `Effect` values returned next to the updated session state.
* The outcomes of the fallible environment calls (`esp_ble_gatts_send_indicate`,
  `malloc`, `calloc`) are modelled by boolean fields of the state
  (`esp_send_ok`, `malloc_ok`, `calloc_ok`).
-/

namespace BLETinyFlow

/-- `MAX_TRANSFER_SIZE = 1024 * 1024` (image_service.h). -/
def MAX_TRANSFER_SIZE : Nat := 1024 * 1024

/-- `MAX_MTU_SIZE = 512` (image_service.h). -/
def MAX_MTU_SIZE : Nat := 512

/-- `ATT_HEADER_SIZE = 3` (image_service.h). -/
def ATT_HEADER_SIZE : Nat := 3

/-- `MAX_ATT_PAYLOAD = MAX_MTU_SIZE - ATT_HEADER_SIZE` (image_service.h). -/
def MAX_ATT_PAYLOAD : Nat := MAX_MTU_SIZE - ATT_HEADER_SIZE

/-- `CONTROL_MSG_SIZE = 20` (image_service.h). -/
def CONTROL_MSG_SIZE : Nat := 20

/-- `DATA_HEADER_SIZE = 4` (image_service.h). -/
def DATA_HEADER_SIZE : Nat := 4

/-- `DEFAULT_CHUNKS_PER_REQUEST = 40` (image_service.h). -/
def DEFAULT_CHUNKS_PER_REQUEST : Nat := 40

/-- Truncation to `uint16_t`. -/
def u16 (n : Nat) : Nat := n % 65536

/-- Truncation to `uint32_t`. -/
def u32 (n : Nat) : Nat := n % 4294967296

/-- Transfer status (`enum class Status`, image_service.h). -/
inductive Status where
  | IDLE
  | INIT_RECEIVED
  | REQUESTING_CHUNKS
  | RECEIVING
  | COMPLETE
  | ERROR
  deriving DecidableEq, Repr

/-- Error codes for the TRANSFER_ERROR command (`enum class ErrorCode`, image_service.h). -/
inductive ErrorCode where
  | UNKNOWN_ERROR
  | TRANSFER_TOO_LARGE
  | CHUNK_SIZE_TOO_LARGE
  | MEMORY_ALLOCATION_FAILED
  | BUFFER_OVERFLOW
  | INVALID_CHUNK_ID
  | DUPLICATE_CHUNK
  | CONTROL_MESSAGE_TOO_SHORT
  | DATA_CHUNK_TOO_SHORT
  | NOTIFICATION_SEND_FAILED
  | INVALID_COMMAND
  deriving DecidableEq, Repr

/-- Numeric wire value of each error code (image_service.h). -/
def errorCodeVal : ErrorCode → Nat
  | ErrorCode.UNKNOWN_ERROR => 0x01
  | ErrorCode.TRANSFER_TOO_LARGE => 0x02
  | ErrorCode.CHUNK_SIZE_TOO_LARGE => 0x03
  | ErrorCode.MEMORY_ALLOCATION_FAILED => 0x04
  | ErrorCode.BUFFER_OVERFLOW => 0x05
  | ErrorCode.INVALID_CHUNK_ID => 0x06
  | ErrorCode.DUPLICATE_CHUNK => 0x07
  | ErrorCode.CONTROL_MESSAGE_TOO_SHORT => 0x08
  | ErrorCode.DATA_CHUNK_TOO_SHORT => 0x09
  | ErrorCode.NOTIFICATION_SEND_FAILED => 0x0A
  | ErrorCode.INVALID_COMMAND => 0x0B

/-- Observable side effects of the handlers (notifications, callback,
connection close, heap frees, advertising restart).  A `controlNotify`
records the ControlMessage handed to `send_control_notification` together
with whether the send succeeded. -/
inductive Effect where
  | controlNotify (command seq p1 p2 p3 : Nat) (delivered : Bool)
  | imageCallback (size : Nat) (validJpeg : Bool)
  | closeConnection
  | freeImageBuffer
  | freeChunkMap
  | restartAdvertising
  deriving DecidableEq, Repr

/-- Decoded `ControlMessage` (20-byte wire struct, image_service.h). -/
structure ControlMsg where
  command : Nat
  sequence_number : Nat
  param1 : Nat
  param2 : Nat
  param3 : Nat
  deriving DecidableEq, Repr

/-- The mutable state of `ImageService` relevant to the transfer protocol,
field for field from image_service.h, plus the environment-outcome flags
described in the file header. -/
structure Session where
  control_char_handle_ : Nat
  data_char_handle_ : Nat
  conn_id_ : Nat
  mtu_ : Nat
  control_notifications_enabled_ : Bool
  data_notifications_enabled_ : Bool
  status_ : Status
  sequence_number_ : Nat
  total_size_ : Nat
  chunk_size_ : Nat
  expected_chunks_ : Nat
  image_buffer_ : Option (Nat → Option Nat)
  received_size_ : Nat
  next_expected_chunk_ : Nat
  chunk_received_map_ : Option (Nat → Bool)
  current_request_start_ : Nat
  current_request_end_ : Nat
  chunks_per_request_ : Nat
  total_chunks_received_ : Nat
  current_batch_received_ : Nat
  image_callback_ : Bool
  esp_send_ok : Bool
  malloc_ok : Bool
  calloc_ok : Bool

/-- Little-endian 16-bit read at byte offset `k` (reinterpret_cast of the
packed wire structs; missing bytes read as 0). -/
def le16_at (d : List Nat) (k : Nat) : Nat :=
  d.getD k 0 + 256 * d.getD (k + 1) 0

/-- Little-endian 32-bit read at byte offset `k`. -/
def le32_at (d : List Nat) (k : Nat) : Nat :=
  d.getD k 0 + 256 * d.getD (k + 1) 0 + 65536 * d.getD (k + 2) 0
    + 16777216 * d.getD (k + 3) 0

/-- Little-endian 16-bit encode. -/
def enc16 (v : Nat) : List Nat := [v % 256, v / 256 % 256]

/-- Little-endian 32-bit encode. -/
def enc32 (v : Nat) : List Nat :=
  [v % 256, v / 256 % 256, v / 65536 % 256, v / 16777216 % 256]

/-- Wire image of a TRANSFER_INIT control message
(command `0x01`, sequence, `param1 = total_size`, `param2 = chunk_size`,
`param3 = expected_chunks`, 5 reserved bytes). -/
def mkInitMsg (seq total cs N : Nat) : List Nat :=
  [1] ++ enc16 seq ++ enc32 total ++ enc32 cs ++ enc32 N ++ [0, 0, 0, 0, 0]

/-- Wire image of a data chunk: `[chunk_id][data_length][payload]`
with a header that states the actual payload length. -/
def mkChunk (i : Nat) (pay : List Nat) : List Nat :=
  enc16 i ++ enc16 pay.length ++ pay

/-- Decode of the 20-byte `ControlMessage` layout
(`command` at 0, `sequence_number` at 1, `param1/2/3` at 3/7/11). -/
def decodeControl (d : List Nat) : ControlMsg :=
  { command := d.getD 0 0
    sequence_number := le16_at d 1
    param1 := le32_at d 3
    param2 := le32_at d 7
    param3 := le32_at d 11 }

/-- `memcpy(buffer + off, pay, pay.length)` on the partial byte store. -/
def writeRange (f : Nat → Option Nat) (off : Nat) (pay : List Nat) :
    Nat → Option Nat :=
  fun p => if off ≤ p ∧ p < off + pay.length then pay.get? (p - off) else f p

/-- `ImageService::release_image_buffer` (image_service.cpp:84-92):
free the buffer if held, otherwise (double release) do nothing. -/
def release_image_buffer (s : Session) : Session × List Effect :=
  match s.image_buffer_ with
  | some _ => ({ s with image_buffer_ := none }, [Effect.freeImageBuffer])
  | none => (s, [])

/-- `ImageService::reset_transfer` (image_service.cpp:94-115). -/
def reset_transfer (s : Session) : Session × List Effect :=
  let r1 := release_image_buffer s
  let r2 : Session × List Effect :=
    match r1.1.chunk_received_map_ with
    | some _ => ({ r1.1 with chunk_received_map_ := none }, [Effect.freeChunkMap])
    | none => (r1.1, [])
  ({ r2.1 with
      total_size_ := 0
      chunk_size_ := 0
      expected_chunks_ := 0
      received_size_ := 0
      next_expected_chunk_ := 0
      current_request_start_ := 0
      current_request_end_ := 0
      total_chunks_received_ := 0
      current_batch_received_ := 0
      status_ := Status.IDLE },
    r1.2 ++ r2.2)

/-- `ImageService::send_control_notification` (image_service.cpp:693-722):
fails when the control characteristic handle is unset, notifications are
not enabled, or the transport send fails. -/
def send_control_notification (s : Session) : Bool :=
  (s.control_char_handle_ != 0) && s.control_notifications_enabled_ && s.esp_send_ok

/-- `ImageService::send_transfer_error` (image_service.cpp:790-801). -/
def send_transfer_error (s : Session) (code : ErrorCode) :
    Session × List Effect × Bool :=
  let s1 := { s with sequence_number_ := u16 (s.sequence_number_ + 1) }
  let ok := send_control_notification s1
  (s1,
   [Effect.controlNotify 0x84 s1.sequence_number_ (errorCodeVal code) 0 0 ok],
   ok)

/-- `ImageService::send_transfer_complete_ack` (image_service.cpp:779-788). -/
def send_transfer_complete_ack (s : Session) (received_size : Nat) :
    Session × List Effect × Bool :=
  let s1 := { s with sequence_number_ := u16 (s.sequence_number_ + 1) }
  let ok := send_control_notification s1
  (s1,
   [Effect.controlNotify 0x83 s1.sequence_number_ received_size 0 0 ok],
   ok)

/-- `ImageService::send_chunk_request` (image_service.cpp:725-777).
`current_request_end_ = start + num - 1` is `uint16_t` arithmetic, so the
`- 1` is modelled as `+ 65535` under `u16`. -/
def send_chunk_request (s : Session) (start_chunk num_chunks : Nat) :
    Session × List Effect × Bool :=
  let s1 := { s with sequence_number_ := u16 (s.sequence_number_ + 1) }
  let s2 := { s1 with
      current_request_start_ := start_chunk
      current_request_end_ := u16 (start_chunk + num_chunks + 65535)
      current_batch_received_ := 0 }
  let ok := send_control_notification s2
  let s3 := if ok then { s2 with status_ := Status.REQUESTING_CHUNKS } else s2
  (s3,
   [Effect.controlNotify 0x82 s1.sequence_number_ start_chunk num_chunks 0 ok],
   ok)

/-- `ImageService::validate_jpeg_header` (image_service.cpp:403-405). -/
def validate_jpeg_header (s : Session) : Bool :=
  (2 ≤ s.received_size_ : Bool) &&
    (match s.image_buffer_ with
     | some f => (f 0 == some 0xFF) && (f 1 == some 0xD8)
     | none => false)

/-- `ImageService::handle_transfer_init` (image_service.cpp:432-496). -/
def handle_transfer_init (s : Session) (msg : ControlMsg) :
    Session × List Effect :=
  if msg.param1 > MAX_TRANSFER_SIZE then
    let r := send_transfer_error s ErrorCode.TRANSFER_TOO_LARGE
    ({ r.1 with status_ := Status.ERROR }, r.2.1)
  else if msg.param2 > MAX_MTU_SIZE - DATA_HEADER_SIZE then
    let r := send_transfer_error s ErrorCode.CHUNK_SIZE_TOO_LARGE
    ({ r.1 with status_ := Status.ERROR }, r.2.1)
  else
    let r0 := reset_transfer s
    let s2 := { r0.1 with
        total_size_ := msg.param1
        chunk_size_ := msg.param2
        expected_chunks_ := msg.param3 }
    if s2.malloc_ok then
      let s2b := { s2 with image_buffer_ := some (fun _ => none) }
      if s2b.calloc_ok then
        let s4 := { s2b with
            chunk_received_map_ := some (fun _ => false)
            status_ := Status.INIT_RECEIVED }
        let first_request_size : Nat :=
          u16 (if s4.expected_chunks_ < s4.chunks_per_request_ then
                 s4.expected_chunks_
               else s4.chunks_per_request_)
        let r5 := send_chunk_request s4 0 first_request_size
        if r5.2.2 then (r5.1, r0.2 ++ r5.2.1)
        else
          let r6 := send_transfer_error r5.1 ErrorCode.NOTIFICATION_SEND_FAILED
          ({ r6.1 with status_ := Status.ERROR }, r0.2 ++ r5.2.1 ++ r6.2.1)
      else
        let s2c := { s2b with image_buffer_ := none }
        let r3 := send_transfer_error s2c ErrorCode.MEMORY_ALLOCATION_FAILED
        ({ r3.1 with status_ := Status.ERROR },
         r0.2 ++ [Effect.freeImageBuffer] ++ r3.2.1)
    else
      let r3 := send_transfer_error s2 ErrorCode.MEMORY_ALLOCATION_FAILED
      ({ r3.1 with status_ := Status.ERROR }, r0.2 ++ r3.2.1)

/-- `ImageService::handle_data_chunk` (image_service.cpp:498-691).
The `uint16_t`/`uint32_t` stores and mixed-width arithmetic are modelled
with explicit `u16`/`u32`; the `expected_batch_size` subtractions are
plain `Nat` subtraction, which agrees with the C arithmetic on all states
where `current_request_start_ ≤ current_request_end_ + 1` and
`current_request_start_ ≤ expected_chunks_` (every state the code can
construct, since `send_chunk_request` keeps `start ≤ end + 1`). -/
def handle_data_chunk (s : Session) (data : List Nat) :
    Session × List Effect :=
  if s.status_ = Status.REQUESTING_CHUNKS ∨ s.status_ = Status.RECEIVING then
    if data.length < DATA_HEADER_SIZE then
      let r := send_transfer_error s ErrorCode.DATA_CHUNK_TOO_SHORT
      (r.1, r.2.1)
    else
      let chunk_id := le16_at data 0
      let data_length0 := le16_at data 2
      if chunk_id ≥ s.expected_chunks_ then
        let r := send_transfer_error s ErrorCode.INVALID_CHUNK_ID
        (r.1, r.2.1)
      else
        let actual_payload_size := data.length - DATA_HEADER_SIZE
        let data_length :=
          if data_length0 ≠ actual_payload_size then actual_payload_size
          else data_length0
        if (s.chunk_received_map_.map (fun m => m chunk_id)).getD false then
          let r := send_transfer_error s ErrorCode.DUPLICATE_CHUNK
          (r.1, r.2.1)
        else
          let offset := u32 (chunk_id * s.chunk_size_)
          if u32 (offset + data_length) > s.total_size_ then
            let r := send_transfer_error s ErrorCode.BUFFER_OVERFLOW
            (r.1, r.2.1)
          else
            let payload := (data.drop DATA_HEADER_SIZE).take data_length
            let s1 := { s with
                image_buffer_ :=
                  s.image_buffer_.map (fun f => writeRange f offset payload)
                chunk_received_map_ :=
                  s.chunk_received_map_.map
                    (fun m => fun j => if j = chunk_id then true else m j)
                received_size_ := u32 (s.received_size_ + data_length)
                total_chunks_received_ := u32 (s.total_chunks_received_ + 1)
                current_batch_received_ :=
                  if s.current_request_start_ ≤ chunk_id ∧
                      chunk_id ≤ s.current_request_end_ then
                    u16 (s.current_batch_received_ + 1)
                  else s.current_batch_received_
                status_ := Status.RECEIVING }
            if s1.total_chunks_received_ ≥ s1.expected_chunks_ then
              let valid := validate_jpeg_header s1
              let s2 := { s1 with status_ := Status.COMPLETE }
              let r3 := send_transfer_complete_ack s2 s2.received_size_
              let cbEff :=
                if s1.image_callback_ then
                  [Effect.imageCallback s1.received_size_ valid]
                else []
              (r3.1, r3.2.1 ++ cbEff ++ [Effect.closeConnection])
            else
              let expected_batch_size :=
                if s1.current_request_end_ ≥ s1.expected_chunks_ then
                  u16 (u32 (s1.expected_chunks_ - s1.current_request_start_))
                else
                  u16 (s1.current_request_end_ + 1 - s1.current_request_start_)
              if s1.current_batch_received_ ≥ expected_batch_size ∧
                  s1.current_request_end_ + 1 < s1.expected_chunks_ then
                let next_start := u16 (s1.current_request_end_ + 1)
                let remaining_chunks :=
                  u16 (u32 (s1.expected_chunks_ - next_start))
                let next_request_size :=
                  if remaining_chunks < s1.chunks_per_request_ then
                    remaining_chunks
                  else s1.chunks_per_request_
                let r2 := send_chunk_request s1 next_start next_request_size
                if r2.2.2 then (r2.1, r2.2.1)
                else
                  let r3 := send_transfer_error r2.1
                              ErrorCode.NOTIFICATION_SEND_FAILED
                  ({ r3.1 with status_ := Status.ERROR }, r2.2.1 ++ r3.2.1)
              else (s1, [])
  else (s, [])

/-- `ImageService::handle_control_message` (image_service.cpp:409-430). -/
def handle_control_message (s : Session) (data : List Nat) :
    Session × List Effect :=
  if data.length < CONTROL_MSG_SIZE then
    let r := send_transfer_error s ErrorCode.CONTROL_MESSAGE_TOO_SHORT
    (r.1, r.2.1)
  else
    let msg := decodeControl data
    if msg.command = 0x01 then handle_transfer_init s msg
    else
      let r := send_transfer_error s ErrorCode.INVALID_COMMAND
      (r.1, r.2.1)

/-- `ImageService::handle_disconnect_event` (image_service.cpp:374-395). -/
def handle_disconnect_event (s : Session) : Session × List Effect :=
  let r1 := reset_transfer s
  ({ r1.1 with
      mtu_ := 23
      control_notifications_enabled_ := false
      data_notifications_enabled_ := false },
   r1.2 ++ [Effect.restartAdvertising])

/-- A TRANSFER_ERROR for `code` was attempted (best effort) among `effects`. -/
def errorAttempted (effects : List Effect) (code : ErrorCode) : Prop :=
  ∃ q d, Effect.controlNotify 0x84 q (errorCodeVal code) 0 0 d ∈ effects

/-- A connected, idle session with both characteristics created, client
notifications enabled, a registered completion callback, and a healthy
environment (sends and allocations succeed). -/
def baseSession : Session where
  control_char_handle_ := 42
  data_char_handle_ := 44
  conn_id_ := 0
  mtu_ := 247
  control_notifications_enabled_ := true
  data_notifications_enabled_ := true
  status_ := Status.IDLE
  sequence_number_ := 0
  total_size_ := 0
  chunk_size_ := 0
  expected_chunks_ := 0
  image_buffer_ := none
  received_size_ := 0
  next_expected_chunk_ := 0
  chunk_received_map_ := none
  current_request_start_ := 0
  current_request_end_ := 0
  chunks_per_request_ := DEFAULT_CHUNKS_PER_REQUEST
  total_chunks_received_ := 0
  current_batch_received_ := 0
  image_callback_ := true
  esp_send_ok := true
  malloc_ok := true
  calloc_ok := true

/-- A mid-transfer session (`total_size = 10`, `chunk_size = 5`,
`expected_chunks = 2`) in which chunk 0 has already been received. -/
def midSession : Session :=
  { baseSession with
      status_ := Status.RECEIVING
      total_size_ := 10
      chunk_size_ := 5
      expected_chunks_ := 2
      image_buffer_ := some (fun _ => none)
      received_size_ := 5
      chunk_received_map_ := some (fun j => j == 0)
      current_request_start_ := 0
      current_request_end_ := 1
      total_chunks_received_ := 1
      current_batch_received_ := 1 }

/-- A session one chunk away from completion: a single expected chunk of
2 bytes. -/
def lastChunkSession : Session :=
  { baseSession with
      status_ := Status.REQUESTING_CHUNKS
      total_size_ := 2
      chunk_size_ := 2
      expected_chunks_ := 1
      image_buffer_ := some (fun _ => none)
      chunk_received_map_ := some (fun _ => false)
      current_request_start_ := 0
      current_request_end_ := 0 }

/-- The chunk-request window sequence generated by the code's two
window-opening sites: the first request covers `[0, min(N, W) - 1]`
(`handle_transfer_init`, image_service.cpp:482-488) and, once a window
fills, the next covers `[end+1, end + min(W, remaining)]`
(`handle_data_chunk`, image_service.cpp:671-680).  Each entry is
`(start, count)`. -/
def windowsFrom (W N start : Nat) : List (Nat × Nat) :=
  if h : start < N ∧ 0 < W then
    (start, min (N - start) W) :: windowsFrom W N (start + min (N - start) W)
  else []
termination_by N - start
decreasing_by
  simp_wf
  have h1 : 1 ≤ min (N - start) W := le_min (by omega) h.2
  omega

/-- The full window sequence of a transfer of `N` chunks with window size
`W`. -/
def windows (N W : Nat) : List (Nat × Nat) := windowsFrom W N 0

/-- Fold a sequence of data-chunk deliveries through the handler,
accumulating the emitted effects. -/
def runChunks (s : Session) (ids : List Nat) (chunk : Nat → List Nat) :
    Session × List Effect :=
  ids.foldl
    (fun acc i =>
      let r := handle_data_chunk acc.1 (chunk i)
      (r.1, acc.2 ++ r.2))
    (s, [])

/-- The `(start, count)` parameters of the CHUNK_REQUEST (0x82)
notifications among a list of effects, in emission order. -/
def chunkReqs (effects : List Effect) : List (Nat × Nat) :=
  effects.filterMap (fun e =>
    match e with
    | Effect.controlNotify c _ p1 p2 _ _ =>
        if c = 0x82 then some (p1, p2) else none
    | _ => none)

/-- Invariant of a C1 run: after the chunks in `S ⊆ range N` have each been
delivered exactly once, the session is still actively receiving, holds the
negotiated parameters, the buffer agrees with the payloads on every
delivered chunk's region, the receipt map is the characteristic function of
`S`, the accumulators match, and the notification environment is healthy. -/
structure C1Inv (total cs N : Nat) (payloads : List (List Nat))
    (S : Finset Nat) (s : Session) : Prop where
  hstat : s.status_ = Status.REQUESTING_CHUNKS ∨ s.status_ = Status.RECEIVING
  htot : s.total_size_ = total
  hcs : s.chunk_size_ = cs
  hexp : s.expected_chunks_ = N
  hbuf : ∃ f, s.image_buffer_ = some f ∧
    ∀ j ∈ S, ∀ q < (payloads.getD j []).length,
      f (j * cs + q) = (payloads.getD j []).get? q
  hmap : ∃ m, s.chunk_received_map_ = some m ∧ ∀ j, m j = decide (j ∈ S)
  hrecv : s.received_size_ = ∑ j ∈ S, (payloads.getD j []).length
  hcnt : s.total_chunks_received_ = S.card
  hsub : S ⊆ Finset.range N
  hch : s.control_char_handle_ ≠ 0
  hen : s.control_notifications_enabled_ = true
  hesp : s.esp_send_ok = true

/-- Invariant of the in-order C5 run after chunks `0..k-1` have been
delivered: the C1 invariant over `range k`, plus the precise
window-tracking state: the current window starts at `ws ≤ k`, spans
`min (N - ws) W` chunk ids, `k - ws` of which have landed so far. -/
structure C5Inv (total cs N W : Nat) (payloads : List (List Nat))
    (k : Nat) (s : Session) : Prop where
  base : C1Inv total cs N payloads (Finset.range k) s
  hW : s.chunks_per_request_ = W
  hwsk : s.current_request_start_ ≤ k
  hwe : s.current_request_end_ =
    s.current_request_start_ +
      min (N - s.current_request_start_) W - 1
  hcons : k - s.current_request_start_ <
    min (N - s.current_request_start_) W
  hbatch : s.current_batch_received_ = k - s.current_request_start_

/-! ## Helper lemmas -/

theorem reset_transfer_state (s : Session) :
    (reset_transfer s).1 =
      { s with
          total_size_ := 0
          chunk_size_ := 0
          expected_chunks_ := 0
          received_size_ := 0
          next_expected_chunk_ := 0
          current_request_start_ := 0
          current_request_end_ := 0
          total_chunks_received_ := 0
          current_batch_received_ := 0
          status_ := Status.IDLE
          image_buffer_ := none
          chunk_received_map_ := none } := by
  unfold reset_transfer release_image_buffer
  rcases hbuf : s.image_buffer_ with _ | f <;>
    rcases hmap : s.chunk_received_map_ with _ | m <;>
      simp [hbuf, hmap]

theorem send_control_notification_congr (s t : Session)
    (h1 : s.control_char_handle_ = t.control_char_handle_)
    (h2 : s.control_notifications_enabled_ = t.control_notifications_enabled_)
    (h3 : s.esp_send_ok = t.esp_send_ok) :
    send_control_notification s = send_control_notification t := by
  unfold send_control_notification
  rw [h1, h2, h3]

theorem send_transfer_error_effects (s : Session) (c : ErrorCode) :
    (send_transfer_error s c).2.1 =
      [Effect.controlNotify 0x84 (u16 (s.sequence_number_ + 1))
        (errorCodeVal c) 0 0 (send_control_notification s)] := rfl

theorem send_transfer_error_state (s : Session) (c : ErrorCode) :
    (send_transfer_error s c).1 =
      { s with sequence_number_ := u16 (s.sequence_number_ + 1) } := rfl

theorem send_transfer_complete_ack_effects (s : Session) (n : Nat) :
    (send_transfer_complete_ack s n).2.1 =
      [Effect.controlNotify 0x83 (u16 (s.sequence_number_ + 1)) n 0 0
        (send_control_notification s)] := rfl

theorem send_transfer_complete_ack_state (s : Session) (n : Nat) :
    (send_transfer_complete_ack s n).1 =
      { s with sequence_number_ := u16 (s.sequence_number_ + 1) } := rfl

theorem send_chunk_request_eq (s : Session) (a b : Nat) :
    send_chunk_request s a b =
      ((if send_control_notification s then
          { s with
              sequence_number_ := u16 (s.sequence_number_ + 1)
              current_request_start_ := a
              current_request_end_ := u16 (a + b + 65535)
              current_batch_received_ := 0
              status_ := Status.REQUESTING_CHUNKS }
        else
          { s with
              sequence_number_ := u16 (s.sequence_number_ + 1)
              current_request_start_ := a
              current_request_end_ := u16 (a + b + 65535)
              current_batch_received_ := 0 }),
       [Effect.controlNotify 0x82 (u16 (s.sequence_number_ + 1)) a b 0
         (send_control_notification s)],
       send_control_notification s) := by
  unfold send_chunk_request
  have hok :
      send_control_notification
        { s with
            sequence_number_ := u16 (s.sequence_number_ + 1)
            current_request_start_ := a
            current_request_end_ := u16 (a + b + 65535)
            current_batch_received_ := 0 } = send_control_notification s := rfl
  rcases h : send_control_notification s with _ | _ <;>
    simp only [hok, h, if_true, if_false, Bool.false_eq_true]

/-- Case analysis on an `if` inside an arbitrary goal predicate. -/
theorem ite_split {α : Sort _} {c : Prop} [Decidable c] {a b : α}
    {P : α → Prop} (ha : c → P a) (hb : ¬c → P b) : P (if c then a else b) := by
  by_cases h : c
  · rw [if_pos h]; exact ha h
  · rw [if_neg h]; exact hb h

/-- Computation of `handle_data_chunk` on an accepted chunk: under the
acceptance conditions (active status, data long enough, valid chunk id, not
a duplicate, no overflow, all machine-width bounds satisfied, and a healthy
notification environment) the handler writes exactly the actual payload
`data.drop 4` at `chunk_id * chunk_size`, marks the id, adds the actual
payload size to `received_size_`, bumps the counter, never frees the
buffer, completes iff the counter reaches `expected_chunks_`, and invokes
the consumer callback at completion. -/
theorem accept_spec (s : Session) (data : List Nat) (f : Nat → Option Nat)
    (m : Nat → Bool)
    (hstat : s.status_ = Status.REQUESTING_CHUNKS ∨ s.status_ = Status.RECEIVING)
    (hlen : DATA_HEADER_SIZE ≤ data.length)
    (hf : s.image_buffer_ = some f) (hm : s.chunk_received_map_ = some m)
    (hid : le16_at data 0 < s.expected_chunks_)
    (hdup : m (le16_at data 0) = false)
    (hoff : le16_at data 0 * s.chunk_size_ < 4294967296)
    (hov : le16_at data 0 * s.chunk_size_ + (data.length - DATA_HEADER_SIZE)
            ≤ s.total_size_)
    (htotb : s.total_size_ < 4294967296)
    (hrb : s.received_size_ + (data.length - DATA_HEADER_SIZE) < 4294967296)
    (hcb : s.total_chunks_received_ + 1 < 4294967296)
    (hch : s.control_char_handle_ ≠ 0)
    (hen : s.control_notifications_enabled_ = true)
    (hesp : s.esp_send_ok = true) :
    (handle_data_chunk s data).1.image_buffer_ =
      some (writeRange f (le16_at data 0 * s.chunk_size_)
        (data.drop DATA_HEADER_SIZE)) ∧
    (handle_data_chunk s data).1.chunk_received_map_ =
      some (fun j => if j = le16_at data 0 then true else m j) ∧
    (handle_data_chunk s data).1.received_size_ =
      s.received_size_ + (data.length - DATA_HEADER_SIZE) ∧
    (handle_data_chunk s data).1.total_chunks_received_ =
      s.total_chunks_received_ + 1 ∧
    (handle_data_chunk s data).1.total_size_ = s.total_size_ ∧
    (handle_data_chunk s data).1.chunk_size_ = s.chunk_size_ ∧
    (handle_data_chunk s data).1.expected_chunks_ = s.expected_chunks_ ∧
    (handle_data_chunk s data).1.control_char_handle_ =
      s.control_char_handle_ ∧
    (handle_data_chunk s data).1.control_notifications_enabled_ =
      s.control_notifications_enabled_ ∧
    (handle_data_chunk s data).1.esp_send_ok = s.esp_send_ok ∧
    (handle_data_chunk s data).1.malloc_ok = s.malloc_ok ∧
    (handle_data_chunk s data).1.calloc_ok = s.calloc_ok ∧
    (handle_data_chunk s data).1.chunks_per_request_ =
      s.chunks_per_request_ ∧
    (handle_data_chunk s data).1.image_callback_ = s.image_callback_ ∧
    (s.expected_chunks_ ≤ s.total_chunks_received_ + 1 →
      (handle_data_chunk s data).1.status_ = Status.COMPLETE) ∧
    (s.total_chunks_received_ + 1 < s.expected_chunks_ →
      ((handle_data_chunk s data).1.status_ = Status.REQUESTING_CHUNKS ∨
       (handle_data_chunk s data).1.status_ = Status.RECEIVING)) ∧
    Effect.freeImageBuffer ∉ (handle_data_chunk s data).2 ∧
    (s.expected_chunks_ ≤ s.total_chunks_received_ + 1 →
      s.image_callback_ = true →
      ∃ v, Effect.imageCallback
        (s.received_size_ + (data.length - DATA_HEADER_SIZE)) v ∈
          (handle_data_chunk s data).2) := by
  unfold handle_data_chunk
  rw [if_pos hstat, if_neg (not_lt.mpr hlen), if_neg (not_le.mpr hid)]
  have hcond :
      (s.chunk_received_map_.map (fun mm => mm (le16_at data 0))).getD false
        = false := by
    rw [hm]; simpa using hdup
  simp only [hcond, Bool.false_eq_true, if_false]
  have hdl :
      (if le16_at data 2 ≠ data.length - DATA_HEADER_SIZE then
         data.length - DATA_HEADER_SIZE
       else le16_at data 2) = data.length - DATA_HEADER_SIZE := by
    rcases eq_or_ne (le16_at data 2) (data.length - DATA_HEADER_SIZE) with
      h | h <;> simp [h]
  rw [hdl]
  rw [show u32 (le16_at data 0 * s.chunk_size_)
        = le16_at data 0 * s.chunk_size_ from Nat.mod_eq_of_lt hoff]
  rw [show u32 (le16_at data 0 * s.chunk_size_
          + (data.length - DATA_HEADER_SIZE))
        = le16_at data 0 * s.chunk_size_ + (data.length - DATA_HEADER_SIZE)
      from Nat.mod_eq_of_lt (lt_of_le_of_lt hov htotb)]
  rw [if_neg (not_lt.mpr hov)]
  have hpay : (data.drop DATA_HEADER_SIZE).take (data.length - DATA_HEADER_SIZE)
      = data.drop DATA_HEADER_SIZE := by
    rw [← List.length_drop]
    exact List.take_length _
  rw [hpay, hf, hm]
  simp only [Option.map_some']
  rw [show u32 (s.received_size_ + (data.length - DATA_HEADER_SIZE))
        = s.received_size_ + (data.length - DATA_HEADER_SIZE)
      from Nat.mod_eq_of_lt hrb]
  rw [show u32 (s.total_chunks_received_ + 1) = s.total_chunks_received_ + 1
      from Nat.mod_eq_of_lt hcb]
  by_cases hfin : s.expected_chunks_ ≤ s.total_chunks_received_ + 1
  · rw [if_pos hfin]
    refine ⟨rfl, rfl, rfl, rfl, rfl, rfl, rfl, rfl, rfl, rfl, rfl, rfl, rfl,
      rfl, fun _ => rfl, fun hlt => absurd hfin (not_le.mpr hlt), ?_, ?_⟩
    · intro hmem
      rw [send_transfer_complete_ack_effects] at hmem
      simp only [List.mem_append, List.mem_singleton] at hmem
      rcases hmem with (h | h) | h
      · simp at h
      · split at h <;> simp at h
      · simp at h
    · intro _ hcbk
      rw [send_transfer_complete_ack_effects, if_pos hcbk]
      exact ⟨_, List.mem_append_left _
        (List.mem_append_right _ (List.mem_singleton_self _))⟩
  · rw [if_neg hfin]
    push_neg at hfin
    rw [send_chunk_request_eq]
    dsimp only
    split_ifs
    all_goals first
      | exact ⟨rfl, rfl, rfl, rfl, rfl, rfl, rfl, rfl, rfl, rfl, rfl, rfl, rfl,
          rfl, fun hle => absurd hfin (not_lt.mpr hle), fun _ => Or.inl rfl,
          by simp, fun hle _ => absurd hfin (not_lt.mpr hle)⟩
      | exact ⟨rfl, rfl, rfl, rfl, rfl, rfl, rfl, rfl, rfl, rfl, rfl, rfl, rfl,
          rfl, fun hle => absurd hfin (not_lt.mpr hle), fun _ => Or.inr rfl,
          by simp, fun hle _ => absurd hfin (not_lt.mpr hle)⟩
      | (exfalso
         first
         | (rename_i hbad
            exact hbad (by simp [send_control_notification, hch, hen, hesp]))
         | (rename_i hbad hx1
            exact hbad (by simp [send_control_notification, hch, hen, hesp]))
         | (rename_i hbad hx1 hx2
            exact hbad (by simp [send_control_notification, hch, hen, hesp])))

/-! ## Claim theorems -/

/-- C8: a data chunk arriving while the session status is neither
`REQUESTING_CHUNKS` nor `RECEIVING` (e.g. Idle, Complete, Error) is
ignored: no error is raised, no TRANSFER_ERROR is sent, and every field of
the session state is left unchanged. -/
theorem C8_stray_chunk_ignored (s : Session) (data : List Nat)
    (h1 : s.status_ ≠ Status.REQUESTING_CHUNKS)
    (h2 : s.status_ ≠ Status.RECEIVING) :
    handle_data_chunk s data = (s, []) := by
  unfold handle_data_chunk
  rw [if_neg]
  rintro (h | h)
  · exact h1 h
  · exact h2 h

/-- Witness for C8 at a concrete idle session and chunk. -/
theorem C8_stray_chunk_ignored_witness :
    baseSession.status_ ≠ Status.REQUESTING_CHUNKS ∧
    baseSession.status_ ≠ Status.RECEIVING ∧
    handle_data_chunk baseSession (mkChunk 0 [1, 2, 3]) = (baseSession, []) :=
  ⟨by decide, by decide,
   C8_stray_chunk_ignored baseSession (mkChunk 0 [1, 2, 3]) (by decide) (by decide)⟩

/-- C7: re-sending a chunk id already marked received (while the session is
actively receiving) yields DuplicateChunk and in fact leaves every session
field except the outbound sequence number unchanged — in particular the
buffer, the receipt map, `received_size_` and both chunk counters. -/
theorem C7_duplicate_chunk (s : Session) (data : List Nat) (m : Nat → Bool)
    (hstat : s.status_ = Status.REQUESTING_CHUNKS ∨ s.status_ = Status.RECEIVING)
    (hlen : DATA_HEADER_SIZE ≤ data.length)
    (hm : s.chunk_received_map_ = some m)
    (hid : le16_at data 0 < s.expected_chunks_)
    (hdup : m (le16_at data 0) = true) :
    (handle_data_chunk s data).2 =
      [Effect.controlNotify 0x84 (u16 (s.sequence_number_ + 1))
        (errorCodeVal ErrorCode.DUPLICATE_CHUNK) 0 0
        (send_control_notification s)] ∧
    (handle_data_chunk s data).1 =
      { s with sequence_number_ := u16 (s.sequence_number_ + 1) } := by
  unfold handle_data_chunk
  rw [if_pos hstat, if_neg (not_lt.mpr hlen), if_neg (not_le.mpr hid)]
  have hcond :
      (s.chunk_received_map_.map (fun m => m (le16_at data 0))).getD false
        = true := by
    rw [hm]; simpa using hdup
  simp only [hcond, if_true]
  exact ⟨rfl, rfl⟩

/-- Witness for C7: chunk 0 of `midSession` is already received; re-sending
it raises DuplicateChunk and changes nothing but the sequence number. -/
theorem C7_duplicate_chunk_witness :
    (handle_data_chunk midSession (mkChunk 0 [9, 9, 9, 9, 9])).2 =
      [Effect.controlNotify 0x84 (u16 (midSession.sequence_number_ + 1))
        (errorCodeVal ErrorCode.DUPLICATE_CHUNK) 0 0
        (send_control_notification midSession)] ∧
    (handle_data_chunk midSession (mkChunk 0 [9, 9, 9, 9, 9])).1 =
      { midSession with sequence_number_ := u16 (midSession.sequence_number_ + 1) } :=
  C7_duplicate_chunk midSession (mkChunk 0 [9, 9, 9, 9, 9]) (fun j => j == 0)
    (Or.inr (by decide)) (by decide) rfl (by decide) (by decide)

/-- C9: an inbound control write of fewer than 20 bytes fails with
ControlMessageTooShort; a 20-byte-or-longer write whose command byte is not
a recognized inbound command (the only one is TRANSFER_INIT = 0x01) yields
InvalidCommand, and in both cases every session field except the outbound
sequence number — status, buffer, receipt map, counters, transfer
parameters — is unchanged. -/
theorem C9_control_decode (s : Session) (data : List Nat) :
    (data.length < CONTROL_MSG_SIZE →
      (handle_control_message s data).2 =
        [Effect.controlNotify 0x84 (u16 (s.sequence_number_ + 1))
          (errorCodeVal ErrorCode.CONTROL_MESSAGE_TOO_SHORT) 0 0
          (send_control_notification s)] ∧
      (handle_control_message s data).1 =
        { s with sequence_number_ := u16 (s.sequence_number_ + 1) }) ∧
    (CONTROL_MSG_SIZE ≤ data.length → data.getD 0 0 ≠ 0x01 →
      (handle_control_message s data).2 =
        [Effect.controlNotify 0x84 (u16 (s.sequence_number_ + 1))
          (errorCodeVal ErrorCode.INVALID_COMMAND) 0 0
          (send_control_notification s)] ∧
      (handle_control_message s data).1 =
        { s with sequence_number_ := u16 (s.sequence_number_ + 1) }) := by
  constructor
  · intro hshort
    unfold handle_control_message
    rw [if_pos hshort]
    exact ⟨rfl, rfl⟩
  · intro hlong hcmd
    unfold handle_control_message
    rw [if_neg (not_lt.mpr hlong), if_neg]
    · exact ⟨rfl, rfl⟩
    · exact hcmd

/-- Witness for C9: a 1-byte write and a 20-byte write with command 0x7F. -/
theorem C9_control_decode_witness :
    ((handle_control_message baseSession [1]).2 =
        [Effect.controlNotify 0x84 (u16 (baseSession.sequence_number_ + 1))
          (errorCodeVal ErrorCode.CONTROL_MESSAGE_TOO_SHORT) 0 0
          (send_control_notification baseSession)] ∧
      (handle_control_message baseSession [1]).1 =
        { baseSession with
            sequence_number_ := u16 (baseSession.sequence_number_ + 1) }) ∧
    ((handle_control_message baseSession (127 :: List.replicate 19 0)).2 =
        [Effect.controlNotify 0x84 (u16 (baseSession.sequence_number_ + 1))
          (errorCodeVal ErrorCode.INVALID_COMMAND) 0 0
          (send_control_notification baseSession)] ∧
      (handle_control_message baseSession (127 :: List.replicate 19 0)).1 =
        { baseSession with
            sequence_number_ := u16 (baseSession.sequence_number_ + 1) }) :=
  ⟨(C9_control_decode baseSession [1]).1 (by decide),
   (C9_control_decode baseSession (127 :: List.replicate 19 0)).2
     (by decide) (by decide)⟩

/-- C4 as frozen is false on the code: a TRANSFER_INIT with
`total_size = MAX_TRANSFER_SIZE + 1` raises TransferTooLarge and allocates
no buffer, but the session status becomes `ERROR`, not Idle. -/
theorem C4_counterexample :
    (handle_transfer_init baseSession
        ⟨1, 0, MAX_TRANSFER_SIZE + 1, 100, 1⟩).1.status_ = Status.ERROR ∧
    (handle_transfer_init baseSession
        ⟨1, 0, MAX_TRANSFER_SIZE + 1, 100, 1⟩).1.status_ ≠ Status.IDLE ∧
    (handle_transfer_init baseSession
        ⟨1, 0, MAX_TRANSFER_SIZE + 1, 100, 1⟩).1.image_buffer_.isNone = true ∧
    (handle_transfer_init baseSession
        ⟨1, 0, MAX_TRANSFER_SIZE + 1, 100, 1⟩).2 =
      [Effect.controlNotify 0x84 1
        (errorCodeVal ErrorCode.TRANSFER_TOO_LARGE) 0 0 true] := by
  decide

/-- C4 amended: a TRANSFER_INIT whose `total_size` exceeds
MAX_TRANSFER_SIZE immediately raises TransferTooLarge and allocates no
buffer; the session status becomes `ERROR` (not an Idle equivalent), and
every other session field — including any previously held buffer and the
stored transfer parameters — is left exactly as it was. -/
theorem C4_transfer_too_large (s : Session) (msg : ControlMsg)
    (h : msg.param1 > MAX_TRANSFER_SIZE) :
    (handle_transfer_init s msg).1 =
      { s with
          sequence_number_ := u16 (s.sequence_number_ + 1)
          status_ := Status.ERROR } ∧
    (handle_transfer_init s msg).2 =
      [Effect.controlNotify 0x84 (u16 (s.sequence_number_ + 1))
        (errorCodeVal ErrorCode.TRANSFER_TOO_LARGE) 0 0
        (send_control_notification s)] := by
  unfold handle_transfer_init
  rw [if_pos h]
  exact ⟨rfl, rfl⟩

/-- Witness for C4 amended at the concrete oversized init. -/
theorem C4_transfer_too_large_witness :
    (handle_transfer_init baseSession ⟨1, 0, MAX_TRANSFER_SIZE + 1, 100, 1⟩).1 =
      { baseSession with
          sequence_number_ := u16 (baseSession.sequence_number_ + 1)
          status_ := Status.ERROR } ∧
    (handle_transfer_init baseSession ⟨1, 0, MAX_TRANSFER_SIZE + 1, 100, 1⟩).2 =
      [Effect.controlNotify 0x84 (u16 (baseSession.sequence_number_ + 1))
        (errorCodeVal ErrorCode.TRANSFER_TOO_LARGE) 0 0
        (send_control_notification baseSession)] :=
  C4_transfer_too_large baseSession ⟨1, 0, MAX_TRANSFER_SIZE + 1, 100, 1⟩
    (by decide)

/-- C6: a disconnect event from any non-Idle state deterministically
returns the session to Idle with the buffer and receipt map released, all
transfer counters zeroed, both notification-enabled flags cleared, and the
MTU reset to the connection-default 23; a second buffer release afterwards
is a no-op, not a fault. -/
theorem C6_disconnect_resets (s : Session) (h : s.status_ ≠ Status.IDLE) :
    (handle_disconnect_event s).1.status_ = Status.IDLE ∧
    (handle_disconnect_event s).1.image_buffer_ = none ∧
    (handle_disconnect_event s).1.chunk_received_map_ = none ∧
    (handle_disconnect_event s).1.total_size_ = 0 ∧
    (handle_disconnect_event s).1.chunk_size_ = 0 ∧
    (handle_disconnect_event s).1.expected_chunks_ = 0 ∧
    (handle_disconnect_event s).1.received_size_ = 0 ∧
    (handle_disconnect_event s).1.next_expected_chunk_ = 0 ∧
    (handle_disconnect_event s).1.current_request_start_ = 0 ∧
    (handle_disconnect_event s).1.current_request_end_ = 0 ∧
    (handle_disconnect_event s).1.total_chunks_received_ = 0 ∧
    (handle_disconnect_event s).1.current_batch_received_ = 0 ∧
    (handle_disconnect_event s).1.control_notifications_enabled_ = false ∧
    (handle_disconnect_event s).1.data_notifications_enabled_ = false ∧
    (handle_disconnect_event s).1.mtu_ = 23 ∧
    release_image_buffer (handle_disconnect_event s).1 =
      ((handle_disconnect_event s).1, []) := by
  unfold handle_disconnect_event reset_transfer release_image_buffer
  rcases hbuf : s.image_buffer_ with _ | f <;>
    rcases hmap : s.chunk_received_map_ with _ | m <;>
      simp [hbuf, hmap]

/-- Witness for C6 at a concrete mid-transfer session. -/
theorem C6_disconnect_resets_witness :
    midSession.status_ ≠ Status.IDLE ∧
    (handle_disconnect_event midSession).1.status_ = Status.IDLE ∧
    (handle_disconnect_event midSession).1.mtu_ = 23 ∧
    release_image_buffer (handle_disconnect_event midSession).1 =
      ((handle_disconnect_event midSession).1, []) := by
  have h := C6_disconnect_resets midSession (by decide)
  exact ⟨by decide, h.1, h.2.2.2.2.2.2.2.2.2.2.2.2.2.2.1,
         h.2.2.2.2.2.2.2.2.2.2.2.2.2.2.2⟩

/-- C2 amended: every error raised while handling an inbound message
attempts a best-effort TRANSFER_ERROR notification, but only the
TRANSFER_INIT-path errors (TransferTooLarge, ChunkSizeTooLarge,
MemoryAllocationFailed, NotificationSendFailed) move the session status to
`ERROR`; the data-path errors (DataChunkTooShort, InvalidChunkId,
DuplicateChunk, BufferOverflow) and ControlMessageTooShort leave the
status unchanged, as does the non-fatal InvalidCommand. -/
theorem C2_error_surfacing (s : Session) (msg : ControlMsg) (data : List Nat) :
    (msg.param1 > MAX_TRANSFER_SIZE →
      errorAttempted (handle_transfer_init s msg).2
        ErrorCode.TRANSFER_TOO_LARGE ∧
      (handle_transfer_init s msg).1.status_ = Status.ERROR) ∧
    (msg.param1 ≤ MAX_TRANSFER_SIZE →
      msg.param2 > MAX_MTU_SIZE - DATA_HEADER_SIZE →
      errorAttempted (handle_transfer_init s msg).2
        ErrorCode.CHUNK_SIZE_TOO_LARGE ∧
      (handle_transfer_init s msg).1.status_ = Status.ERROR) ∧
    (msg.param1 ≤ MAX_TRANSFER_SIZE →
      msg.param2 ≤ MAX_MTU_SIZE - DATA_HEADER_SIZE →
      s.malloc_ok = false →
      errorAttempted (handle_transfer_init s msg).2
        ErrorCode.MEMORY_ALLOCATION_FAILED ∧
      (handle_transfer_init s msg).1.status_ = Status.ERROR) ∧
    (msg.param1 ≤ MAX_TRANSFER_SIZE →
      msg.param2 ≤ MAX_MTU_SIZE - DATA_HEADER_SIZE →
      s.malloc_ok = true → s.calloc_ok = false →
      errorAttempted (handle_transfer_init s msg).2
        ErrorCode.MEMORY_ALLOCATION_FAILED ∧
      (handle_transfer_init s msg).1.status_ = Status.ERROR) ∧
    (msg.param1 ≤ MAX_TRANSFER_SIZE →
      msg.param2 ≤ MAX_MTU_SIZE - DATA_HEADER_SIZE →
      s.malloc_ok = true → s.calloc_ok = true →
      s.esp_send_ok = false →
      errorAttempted (handle_transfer_init s msg).2
        ErrorCode.NOTIFICATION_SEND_FAILED ∧
      (handle_transfer_init s msg).1.status_ = Status.ERROR) ∧
    (data.length < CONTROL_MSG_SIZE →
      errorAttempted (handle_control_message s data).2
        ErrorCode.CONTROL_MESSAGE_TOO_SHORT ∧
      (handle_control_message s data).1.status_ = s.status_) ∧
    (CONTROL_MSG_SIZE ≤ data.length → data.getD 0 0 ≠ 0x01 →
      errorAttempted (handle_control_message s data).2
        ErrorCode.INVALID_COMMAND ∧
      (handle_control_message s data).1.status_ = s.status_) ∧
    (s.status_ = Status.REQUESTING_CHUNKS ∨ s.status_ = Status.RECEIVING →
      (data.length < DATA_HEADER_SIZE →
        errorAttempted (handle_data_chunk s data).2
          ErrorCode.DATA_CHUNK_TOO_SHORT ∧
        (handle_data_chunk s data).1.status_ = s.status_) ∧
      (DATA_HEADER_SIZE ≤ data.length →
        s.expected_chunks_ ≤ le16_at data 0 →
        errorAttempted (handle_data_chunk s data).2
          ErrorCode.INVALID_CHUNK_ID ∧
        (handle_data_chunk s data).1.status_ = s.status_) ∧
      (∀ m : Nat → Bool, DATA_HEADER_SIZE ≤ data.length →
        le16_at data 0 < s.expected_chunks_ →
        s.chunk_received_map_ = some m → m (le16_at data 0) = true →
        errorAttempted (handle_data_chunk s data).2
          ErrorCode.DUPLICATE_CHUNK ∧
        (handle_data_chunk s data).1.status_ = s.status_) ∧
      (∀ m : Nat → Bool, DATA_HEADER_SIZE ≤ data.length →
        le16_at data 0 < s.expected_chunks_ →
        s.chunk_received_map_ = some m → m (le16_at data 0) = false →
        u32 (u32 (le16_at data 0 * s.chunk_size_)
              + (data.length - DATA_HEADER_SIZE)) > s.total_size_ →
        errorAttempted (handle_data_chunk s data).2
          ErrorCode.BUFFER_OVERFLOW ∧
        (handle_data_chunk s data).1.status_ = s.status_)) := by
  refine ⟨?_, ?_, ?_, ?_, ?_, ?_, ?_, ?_⟩
  · intro h1
    unfold handle_transfer_init
    rw [if_pos h1]
    exact ⟨⟨_, _, List.mem_singleton_self _⟩, rfl⟩
  · intro h1 h2
    unfold handle_transfer_init
    rw [if_neg (not_lt.mpr h1), if_pos h2]
    exact ⟨⟨_, _, List.mem_singleton_self _⟩, rfl⟩
  · intro h1 h2 hmal
    simp only [handle_transfer_init, reset_transfer_state]
    rw [if_neg (not_lt.mpr h1), if_neg (not_lt.mpr h2)]
    rw [hmal]
    rw [if_neg Bool.false_ne_true]
    exact ⟨⟨_, _, List.mem_append_right _ (List.mem_singleton_self _)⟩, rfl⟩
  · intro h1 h2 hmal hcal
    simp only [handle_transfer_init, reset_transfer_state]
    rw [if_neg (not_lt.mpr h1), if_neg (not_lt.mpr h2)]
    rw [hmal, if_pos rfl, hcal, if_neg Bool.false_ne_true]
    exact ⟨⟨_, _, List.mem_append_right _ (List.mem_singleton_self _)⟩, rfl⟩
  · intro h1 h2 hmal hcal hsend
    simp only [handle_transfer_init, reset_transfer_state, send_chunk_request_eq,
      send_transfer_error_effects, send_transfer_error_state]
    rw [if_neg (not_lt.mpr h1), if_neg (not_lt.mpr h2)]
    rw [hmal, if_pos rfl, hcal, if_pos rfl]
    simp only [send_control_notification, hsend, Bool.and_false,
      Bool.false_eq_true, if_false]
    exact ⟨⟨_, _, List.mem_append_right _ (List.mem_singleton_self _)⟩, trivial⟩
  · intro hshort
    unfold handle_control_message
    rw [if_pos hshort]
    exact ⟨⟨_, _, List.mem_singleton_self _⟩, rfl⟩
  · intro hlong hcmd
    unfold handle_control_message
    rw [if_neg (not_lt.mpr hlong), if_neg]
    · exact ⟨⟨_, _, List.mem_singleton_self _⟩, rfl⟩
    · exact hcmd
  · intro hstat
    refine ⟨?_, ?_, ?_, ?_⟩
    · intro hshort
      unfold handle_data_chunk
      rw [if_pos hstat, if_pos hshort]
      exact ⟨⟨_, _, List.mem_singleton_self _⟩, rfl⟩
    · intro hlen hid
      unfold handle_data_chunk
      rw [if_pos hstat, if_neg (not_lt.mpr hlen), if_pos hid]
      exact ⟨⟨_, _, List.mem_singleton_self _⟩, rfl⟩
    · intro m hlen hid hm hdup
      unfold handle_data_chunk
      rw [if_pos hstat, if_neg (not_lt.mpr hlen), if_neg (not_le.mpr hid)]
      have hcond :
          (s.chunk_received_map_.map (fun m => m (le16_at data 0))).getD false
            = true := by
        rw [hm]; simpa using hdup
      simp only [hcond, if_true]
      exact ⟨⟨_, _, List.mem_singleton_self _⟩, rfl⟩
    · intro m hlen hid hm hdup hov
      unfold handle_data_chunk
      rw [if_pos hstat, if_neg (not_lt.mpr hlen), if_neg (not_le.mpr hid)]
      have hcond :
          (s.chunk_received_map_.map (fun m => m (le16_at data 0))).getD false
            = false := by
        rw [hm]; simpa using hdup
      simp only [hcond, Bool.false_eq_true, if_false]
      have hdl :
          (if le16_at data 2 ≠ data.length - DATA_HEADER_SIZE then
             data.length - DATA_HEADER_SIZE
           else le16_at data 2) = data.length - DATA_HEADER_SIZE := by
        rcases eq_or_ne (le16_at data 2) (data.length - DATA_HEADER_SIZE) with
          h | h <;> simp [h]
      rw [hdl, if_pos hov]
      exact ⟨⟨_, _, List.mem_singleton_self _⟩, rfl⟩

/-- Witness for C2 at concrete inputs: an oversized init moves the session
to `ERROR` with TransferTooLarge attempted, and a duplicate chunk leaves
the status at `RECEIVING` with DuplicateChunk attempted. -/
theorem C2_error_surfacing_witness :
    (errorAttempted
        (handle_transfer_init baseSession
          ⟨1, 0, MAX_TRANSFER_SIZE + 1, 100, 1⟩).2
        ErrorCode.TRANSFER_TOO_LARGE ∧
      (handle_transfer_init baseSession
        ⟨1, 0, MAX_TRANSFER_SIZE + 1, 100, 1⟩).1.status_ = Status.ERROR) ∧
    (errorAttempted
        (handle_data_chunk midSession (mkChunk 0 [9, 9, 9, 9, 9])).2
        ErrorCode.DUPLICATE_CHUNK ∧
      (handle_data_chunk midSession (mkChunk 0 [9, 9, 9, 9, 9])).1.status_ =
        midSession.status_) :=
  ⟨(C2_error_surfacing baseSession ⟨1, 0, MAX_TRANSFER_SIZE + 1, 100, 1⟩ []).1
      (by decide),
   ((C2_error_surfacing midSession ⟨0, 0, 0, 0, 0⟩
        (mkChunk 0 [9, 9, 9, 9, 9])).2.2.2.2.2.2.2
      (Or.inr (by decide))).2.2.1 (fun j => j == 0) (by decide) (by decide)
      rfl (by decide)⟩

/-- C2 as frozen is false on the code: a DuplicateChunk error is raised and
surfaced via TRANSFER_ERROR, yet the session status stays `RECEIVING`
instead of moving to `ERROR`. -/
theorem C2_counterexample :
    (handle_data_chunk midSession (mkChunk 0 [9, 9, 9, 9, 9])).2 =
      [Effect.controlNotify 0x84 1
        (errorCodeVal ErrorCode.DUPLICATE_CHUNK) 0 0 true] ∧
    (handle_data_chunk midSession (mkChunk 0 [9, 9, 9, 9, 9])).1.status_ =
      Status.RECEIVING ∧
    Status.RECEIVING ≠ Status.ERROR := by
  decide

/-- C3 as frozen is false on the code: when the transfer completes, the
session does not clear its buffer reference (the pointer is retained after
the consumer callback), and the engine itself frees the buffer on the
following disconnect — the consumer's explicit release is not the only
freeing path. -/
theorem C3_counterexample :
    (handle_data_chunk lastChunkSession (mkChunk 0 [255, 216])).1.status_ =
      Status.COMPLETE ∧
    (handle_data_chunk lastChunkSession
        (mkChunk 0 [255, 216])).1.image_buffer_.isSome = true ∧
    Effect.freeImageBuffer ∉
      (handle_data_chunk lastChunkSession (mkChunk 0 [255, 216])).2 ∧
    Effect.freeImageBuffer ∈
      (handle_disconnect_event
        (handle_data_chunk lastChunkSession (mkChunk 0 [255, 216])).1).2 := by
  decide

/-- C3 amended: when a transfer completes, the consumer callback is invoked
with the final received size, but the session retains its buffer reference
and frees nothing during the completion event; the buffer is freed either
by an explicit `release_image_buffer` call — which clears the reference and
makes a second release a no-op — or by the engine itself when the session
is next reset (e.g. on disconnect). -/
theorem C3_ownership (s : Session) (data : List Nat) (f : Nat → Option Nat)
    (m : Nat → Bool)
    (hstat : s.status_ = Status.REQUESTING_CHUNKS ∨ s.status_ = Status.RECEIVING)
    (hlen : DATA_HEADER_SIZE ≤ data.length)
    (hf : s.image_buffer_ = some f) (hm : s.chunk_received_map_ = some m)
    (hid : le16_at data 0 < s.expected_chunks_)
    (hdup : m (le16_at data 0) = false)
    (hoff : le16_at data 0 * s.chunk_size_ < 4294967296)
    (hov : le16_at data 0 * s.chunk_size_ + (data.length - DATA_HEADER_SIZE)
            ≤ s.total_size_)
    (htotb : s.total_size_ < 4294967296)
    (hrb : s.received_size_ + (data.length - DATA_HEADER_SIZE) < 4294967296)
    (hcb : s.total_chunks_received_ + 1 < 4294967296)
    (hch : s.control_char_handle_ ≠ 0)
    (hen : s.control_notifications_enabled_ = true)
    (hesp : s.esp_send_ok = true)
    (hfin : s.expected_chunks_ ≤ s.total_chunks_received_ + 1)
    (hcbk : s.image_callback_ = true) :
    (handle_data_chunk s data).1.status_ = Status.COMPLETE ∧
    (handle_data_chunk s data).1.image_buffer_ =
      some (writeRange f (le16_at data 0 * s.chunk_size_)
        (data.drop DATA_HEADER_SIZE)) ∧
    Effect.freeImageBuffer ∉ (handle_data_chunk s data).2 ∧
    (∃ v, Effect.imageCallback
      (s.received_size_ + (data.length - DATA_HEADER_SIZE)) v ∈
        (handle_data_chunk s data).2) ∧
    (∀ t : Session, ∀ g : Nat → Option Nat, t.image_buffer_ = some g →
      (release_image_buffer t).1.image_buffer_ = none ∧
      (release_image_buffer t).2 = [Effect.freeImageBuffer] ∧
      release_image_buffer (release_image_buffer t).1 =
        ((release_image_buffer t).1, [])) ∧
    Effect.freeImageBuffer ∈
      (handle_disconnect_event (handle_data_chunk s data).1).2 := by
  have h := accept_spec s data f m hstat hlen hf hm hid hdup hoff hov htotb
    hrb hcb hch hen hesp
  obtain ⟨hbuf, -, -, -, -, -, -, -, -, -, -, -, -, -, hcomp, -, hfree, hcall⟩ := h
  refine ⟨hcomp hfin, hbuf, hfree, hcall hfin hcbk, ?_, ?_⟩
  · intro t g hg
    unfold release_image_buffer
    rw [hg]
    exact ⟨rfl, rfl, rfl⟩
  · unfold handle_disconnect_event reset_transfer release_image_buffer
    rw [hbuf]
    simp

/-- Witness for C3 amended: completing the single-chunk transfer of
`lastChunkSession` invokes the callback, retains the buffer, and the buffer
is freed only by an explicit release or the next reset. -/
theorem C3_ownership_witness :
    (handle_data_chunk lastChunkSession (mkChunk 0 [255, 216])).1.status_ =
      Status.COMPLETE ∧
    (handle_data_chunk lastChunkSession (mkChunk 0 [255, 216])).1.image_buffer_ =
      some (writeRange (fun _ => none) 0 ((mkChunk 0 [255, 216]).drop
        DATA_HEADER_SIZE)) ∧
    Effect.freeImageBuffer ∉
      (handle_data_chunk lastChunkSession (mkChunk 0 [255, 216])).2 ∧
    (∃ v, Effect.imageCallback 2 v ∈
      (handle_data_chunk lastChunkSession (mkChunk 0 [255, 216])).2) ∧
    (∀ t : Session, ∀ g : Nat → Option Nat, t.image_buffer_ = some g →
      (release_image_buffer t).1.image_buffer_ = none ∧
      (release_image_buffer t).2 = [Effect.freeImageBuffer] ∧
      release_image_buffer (release_image_buffer t).1 =
        ((release_image_buffer t).1, [])) ∧
    Effect.freeImageBuffer ∈
      (handle_disconnect_event
        (handle_data_chunk lastChunkSession (mkChunk 0 [255, 216])).1).2 :=
  C3_ownership lastChunkSession (mkChunk 0 [255, 216]) (fun _ => none)
    (fun _ => false) (Or.inl rfl) (by decide) rfl rfl (by decide) rfl
    (by decide) (by decide) (by decide) (by decide) (by decide) (by decide)
    rfl rfl (by decide) rfl

/-- C10: the header's `data_length` field never influences the result — the
handler's outcome depends on the wire bytes only through the total length,
the chunk id bytes, and the payload bytes; and on an accepted chunk exactly
`len - 4` bytes (the actual payload) are copied to the buffer at
`chunk_id * chunk_size` and added to `received_size_`. -/
theorem C10_actual_payload_governs (s : Session) (d1 d2 data : List Nat)
    (f : Nat → Option Nat) (m : Nat → Bool) :
    (d1.length = d2.length → d1.take 2 = d2.take 2 →
      d1.drop DATA_HEADER_SIZE = d2.drop DATA_HEADER_SIZE →
      handle_data_chunk s d1 = handle_data_chunk s d2) ∧
    (s.status_ = Status.REQUESTING_CHUNKS ∨ s.status_ = Status.RECEIVING →
     DATA_HEADER_SIZE ≤ data.length →
     s.image_buffer_ = some f → s.chunk_received_map_ = some m →
     le16_at data 0 < s.expected_chunks_ →
     m (le16_at data 0) = false →
     le16_at data 0 * s.chunk_size_ < 4294967296 →
     le16_at data 0 * s.chunk_size_ + (data.length - DATA_HEADER_SIZE)
       ≤ s.total_size_ →
     s.total_size_ < 4294967296 →
     s.received_size_ + (data.length - DATA_HEADER_SIZE) < 4294967296 →
     s.total_chunks_received_ + 1 < 4294967296 →
     s.control_char_handle_ ≠ 0 →
     s.control_notifications_enabled_ = true →
     s.esp_send_ok = true →
     (handle_data_chunk s data).1.received_size_ =
       s.received_size_ + (data.length - DATA_HEADER_SIZE) ∧
     (handle_data_chunk s data).1.image_buffer_ =
       some (writeRange f (le16_at data 0 * s.chunk_size_)
         (data.drop DATA_HEADER_SIZE))) := by
  constructor
  · intro hlen htake hdrop
    have h0 : d1.getD 0 0 = d2.getD 0 0 := by
      have := congrArg (fun l => l.getD 0 0) htake
      simpa [List.getD, List.get?_take] using this
    have h1 : d1.getD 1 0 = d2.getD 1 0 := by
      have := congrArg (fun l => l.getD 1 0) htake
      simpa [List.getD, List.get?_take] using this
    have hid : le16_at d1 0 = le16_at d2 0 := by
      unfold le16_at
      rw [h0, h1]
    have hdl1 :
        (if le16_at d1 2 ≠ d1.length - DATA_HEADER_SIZE then
           d1.length - DATA_HEADER_SIZE
         else le16_at d1 2) = d1.length - DATA_HEADER_SIZE := by
      rcases eq_or_ne (le16_at d1 2) (d1.length - DATA_HEADER_SIZE) with
        h | h <;> simp [h]
    have hdl2 :
        (if le16_at d2 2 ≠ d2.length - DATA_HEADER_SIZE then
           d2.length - DATA_HEADER_SIZE
         else le16_at d2 2) = d2.length - DATA_HEADER_SIZE := by
      rcases eq_or_ne (le16_at d2 2) (d2.length - DATA_HEADER_SIZE) with
        h | h <;> simp [h]
    simp only [handle_data_chunk]
    rw [hdl1, hdl2, hid, hlen, hdrop]
  · intro hstat hlen hf hm hid hdup hoff hov htotb hrb hcb hch hen hesp
    have h := accept_spec s data f m hstat hlen hf hm hid hdup hoff hov htotb
      hrb hcb hch hen hesp
    exact ⟨h.2.2.1, h.1⟩

/-- Witness for C10: two wire images of chunk 1 of `midSession` differing
only in the claimed `data_length` (4 vs the actual 5) produce identical
results, and the accepted chunk adds exactly 5 = len - 4 bytes. -/
theorem C10_actual_payload_governs_witness :
    (handle_data_chunk midSession (mkChunk 1 [1, 2, 3, 4, 5]) =
      handle_data_chunk midSession ([1, 0, 4, 0] ++ [1, 2, 3, 4, 5])) ∧
    (handle_data_chunk midSession (mkChunk 1 [1, 2, 3, 4, 5])).1.received_size_ =
      midSession.received_size_ + 5 :=
  ⟨(C10_actual_payload_governs midSession (mkChunk 1 [1, 2, 3, 4, 5])
      ([1, 0, 4, 0] ++ [1, 2, 3, 4, 5]) [] (fun _ => none) (fun _ => false)).1
      (by decide) (by decide) (by decide),
   ((C10_actual_payload_governs midSession [] [] (mkChunk 1 [1, 2, 3, 4, 5])
      (fun _ => none) (fun j => j == 0)).2 (Or.inr rfl) (by decide) rfl rfl
      (by decide) (by decide) (by decide) (by decide) (by decide) (by decide)
      (by decide) (by decide) rfl rfl).1⟩

/-! ## Lemmas for the full-transfer run (C1, C5) -/

theorem le16_mkChunk_id (i : Nat) (pay : List Nat) (hi : i < 65536) :
    le16_at (mkChunk i pay) 0 = i := by
  simp only [mkChunk, enc16, le16_at, List.cons_append, List.nil_append,
    List.getD_cons_zero, List.getD_cons_succ]
  omega

theorem le16_mkChunk_len (i : Nat) (pay : List Nat)
    (hl : pay.length < 65536) :
    le16_at (mkChunk i pay) 2 = pay.length := by
  simp only [mkChunk, enc16, le16_at, List.cons_append, List.nil_append,
    List.getD_cons_zero, List.getD_cons_succ]
  omega

theorem mkChunk_length (i : Nat) (pay : List Nat) :
    (mkChunk i pay).length = pay.length + 4 := by
  simp [mkChunk, enc16]

theorem mkChunk_drop (i : Nat) (pay : List Nat) :
    (mkChunk i pay).drop DATA_HEADER_SIZE = pay := rfl

theorem decode_mkInitMsg (seq total cs N : Nat)
    (h1 : total < 4294967296) (h2 : cs < 4294967296) (h3 : N < 4294967296) :
    decodeControl (mkInitMsg seq total cs N) =
      { command := 1
        sequence_number := le16_at (mkInitMsg seq total cs N) 1
        param1 := total
        param2 := cs
        param3 := N } := by
  simp only [decodeControl, mkInitMsg, enc16, enc32, le32_at,
    List.cons_append, List.nil_append, List.getD_cons_zero,
    List.getD_cons_succ, ControlMsg.mk.injEq]
  refine ⟨trivial, trivial, ?_, ?_, ?_⟩ <;> omega

theorem mkInitMsg_length (seq total cs N : Nat) :
    (mkInitMsg seq total cs N).length = 20 := rfl

theorem writeRange_in (f : Nat → Option Nat) (off : Nat) (pay : List Nat)
    (p : Nat) (h1 : off ≤ p) (h2 : p < off + pay.length) :
    writeRange f off pay p = pay.get? (p - off) := by
  unfold writeRange
  rw [if_pos ⟨h1, h2⟩]

theorem writeRange_out (f : Nat → Option Nat) (off : Nat) (pay : List Nat)
    (p : Nat) (h : p < off ∨ off + pay.length ≤ p) :
    writeRange f off pay p = f p := by
  unfold writeRange
  rw [if_neg]
  rintro ⟨h1, h2⟩
  rcases h with h | h <;> omega

/-- Chunk regions of distinct ids never overlap when every chunk is at most
`cs` bytes. -/
theorem region_out (cs len_i len_j i j q : Nat) (hne : j ≠ i)
    (hq : q < len_j) (hli : len_i ≤ cs) (hlj : len_j ≤ cs) :
    j * cs + q < i * cs ∨ i * cs + len_i ≤ j * cs + q := by
  rcases Nat.lt_or_ge j i with h | h
  · left
    have h1 : (j + 1) * cs ≤ i * cs := Nat.mul_le_mul_right cs h
    have e : (j + 1) * cs = j * cs + cs := by ring
    omega
  · have hji : i < j := lt_of_le_of_ne h (Ne.symm hne)
    right
    have h1 : (i + 1) * cs ≤ j * cs := Nat.mul_le_mul_right cs hji
    have e : (i + 1) * cs = i * cs + cs := by ring
    omega

/-- Indexing the concatenation of the payload list: when all chunks before
`j` have exactly `cs` bytes, byte `q` of chunk `j` sits at `j * cs + q`. -/
theorem join_get (cs : Nat) : ∀ (L : List (List Nat)) (j q : Nat),
    (∀ k, k < j → (L.getD k []).length = cs) → j < L.length →
    q < (L.getD j []).length →
    L.join.get? (j * cs + q) = (L.getD j []).get? q := by
  intro L
  induction L with
  | nil =>
    intro j q _ hj _
    simp at hj
  | cons x t ih =>
    intro j q hfull hj hq
    cases j with
    | zero =>
      simp only [List.join_cons, Nat.zero_mul, Nat.zero_add,
        List.getD_cons_zero] at hq ⊢
      exact List.get?_append hq
    | succ j =>
      have hx : x.length = cs := by
        have := hfull 0 (Nat.succ_pos j)
        simpa using this
      have e : (j + 1) * cs + q = x.length + (j * cs + q) := by
        rw [hx]; ring
      simp only [List.join_cons, List.getD_cons_succ] at hq ⊢
      rw [e, List.get?_append_right (Nat.le_add_right _ _)]
      rw [Nat.add_sub_cancel_left]
      refine ih j q ?_ ?_ hq
      · intro k hk
        have := hfull (k + 1) (by omega)
        simpa using this
      · simpa using hj

/-- The payload lengths of a valid `(total, cs, N)` triple sum to `total`. -/
theorem chunk_len_sum (total cs N : Nat) (payloads : List (List Nat))
    (hN1 : 1 ≤ N)
    (hsz : ∀ k, k + 1 < N → (payloads.getD k []).length = cs)
    (hlast : (payloads.getD (N - 1) []).length = total - (N - 1) * cs)
    (hlb : (N - 1) * cs < total) :
    ∑ j ∈ Finset.range N, (payloads.getD j []).length = total := by
  obtain ⟨M, rfl⟩ : ∃ M, N = M + 1 := ⟨N - 1, by omega⟩
  rw [Finset.sum_range_succ]
  have hstep : ∀ j ∈ Finset.range M, (payloads.getD j []).length = cs := by
    intro j hj
    exact hsz j (by have := Finset.mem_range.mp hj; omega)
  rw [Finset.sum_congr rfl hstep, Finset.sum_const, Finset.card_range,
    smul_eq_mul]
  have hM : M + 1 - 1 = M := by omega
  rw [hM] at hlast hlb
  rw [hlast]
  exact Nat.add_sub_cancel' (le_of_lt hlb)

/-- Every chunk of a valid triple is at most `cs` bytes. -/
theorem chunk_len_le (total cs N : Nat) (payloads : List (List Nat))
    (hsz : ∀ k, k + 1 < N → (payloads.getD k []).length = cs)
    (hlast : (payloads.getD (N - 1) []).length = total - (N - 1) * cs)
    (hub : total ≤ N * cs) (hN1 : 1 ≤ N) :
    ∀ j, j < N → (payloads.getD j []).length ≤ cs := by
  intro j hj
  rcases Nat.lt_or_ge (j + 1) N with h | h
  · rw [hsz j h]
  · have hjN : j = N - 1 := by omega
    subst hjN
    rw [hlast]
    obtain ⟨M, rfl⟩ : ∃ M, N = M + 1 := ⟨N - 1, by omega⟩
    have e : (M + 1) * cs = M * cs + cs := by ring
    have hM : M + 1 - 1 = M := by omega
    rw [hM]
    omega

/-- A valid TRANSFER_INIT on a healthy session establishes the empty-run
invariant: buffer and map allocated, counters zeroed, first chunk request
sent, status `REQUESTING_CHUNKS`. -/
theorem c1_init (s0 : Session) (total cs N : Nat)
    (payloads : List (List Nat)) (msg : ControlMsg)
    (hm1 : msg.param1 = total) (hm2 : msg.param2 = cs) (hm3 : msg.param3 = N)
    (htot : total ≤ MAX_TRANSFER_SIZE)
    (hcs : cs ≤ MAX_MTU_SIZE - DATA_HEADER_SIZE)
    (hch : s0.control_char_handle_ ≠ 0)
    (hen : s0.control_notifications_enabled_ = true)
    (hesp : s0.esp_send_ok = true)
    (hma : s0.malloc_ok = true) (hca : s0.calloc_ok = true) :
    C1Inv total cs N payloads ∅ (handle_transfer_init s0 msg).1 := by
  unfold handle_transfer_init
  rw [if_neg (by rw [hm1]; exact not_lt.mpr htot),
      if_neg (by rw [hm2]; exact not_lt.mpr hcs)]
  simp only [reset_transfer_state, send_chunk_request_eq]
  rw [hma, if_pos rfl, hca, if_pos rfl]
  refine @ite_split (Session × List Effect) _ _ _ _
    (fun r => C1Inv total cs N payloads ∅ r.1) ?_ ?_
  rotate_left
  · intro hbad
    exfalso
    apply hbad
    simp [send_control_notification, hch, hen, hesp]
  intro hc
  dsimp only
  refine @ite_split _ _ _ _ _ (C1Inv total cs N payloads ∅) ?_ ?_
  rotate_left
  · intro hbad
    exact absurd hc hbad
  intro _
  exact
    { hstat := Or.inl rfl
      htot := hm1
      hcs := hm2
      hexp := hm3
      hbuf := ⟨fun _ => none, rfl, by simp⟩
      hmap := ⟨fun _ => false, rfl, by simp⟩
      hrecv := by simp
      hcnt := by simp
      hsub := Finset.empty_subset _
      hch := hch
      hen := hen
      hesp := hesp }

/-- Delivering a fresh chunk `i < N` preserves the invariant, and when it is
the last outstanding chunk the session completes with `received_size_ =
total` and the buffer equal to the concatenation of the payloads. -/
theorem c1_step (total cs N : Nat) (payloads : List (List Nat))
    (S : Finset Nat) (s : Session) (i : Nat)
    (hN1 : 1 ≤ N) (hN2 : N ≤ 65535) (hcs1 : 1 ≤ cs)
    (htotmax : total ≤ MAX_TRANSFER_SIZE)
    (hplen : payloads.length = N)
    (hsz : ∀ k, k + 1 < N → (payloads.getD k []).length = cs)
    (hlast : (payloads.getD (N - 1) []).length = total - (N - 1) * cs)
    (hlb : (N - 1) * cs < total) (hub : total ≤ N * cs)
    (hinv : C1Inv total cs N payloads S s)
    (hiN : i < N) (hiS : i ∉ S) :
    (S.card + 1 < N → C1Inv total cs N payloads (insert i S)
       (handle_data_chunk s (mkChunk i (payloads.getD i []))).1) ∧
    (S.card + 1 = N →
       (handle_data_chunk s
           (mkChunk i (payloads.getD i []))).1.status_ = Status.COMPLETE ∧
       (handle_data_chunk s
           (mkChunk i (payloads.getD i []))).1.received_size_ = total ∧
       ∃ f, (handle_data_chunk s
           (mkChunk i (payloads.getD i []))).1.image_buffer_ = some f ∧
         ∀ p, p < total → f p = payloads.join.get? p) := by
  obtain ⟨f, hf, hfreg⟩ := hinv.hbuf
  obtain ⟨m, hm, hmS⟩ := hinv.hmap
  have hmax : MAX_TRANSFER_SIZE = 1048576 := rfl
  have hlen_le : ∀ j, j < N → (payloads.getD j []).length ≤ cs :=
    chunk_len_le total cs N payloads hsz hlast hub hN1
  have hsum : ∑ j ∈ Finset.range N, (payloads.getD j []).length = total :=
    chunk_len_sum total cs N payloads hN1 hsz hlast hlb
  have hid16 : le16_at (mkChunk i (payloads.getD i [])) 0 = i :=
    le16_mkChunk_id i _ (by omega)
  have hlen4 : DATA_HEADER_SIZE ≤ (mkChunk i (payloads.getD i [])).length := by
    rw [mkChunk_length]
    simp [DATA_HEADER_SIZE]
  have hlenc : (mkChunk i (payloads.getD i [])).length - DATA_HEADER_SIZE
      = (payloads.getD i []).length := by
    rw [mkChunk_length]
    simp [DATA_HEADER_SIZE]
  -- the chunk's region fits in the buffer
  have hfit : i * cs + (payloads.getD i []).length ≤ total := by
    rcases Nat.lt_or_ge (i + 1) N with h | h
    · rw [hsz i h]
      have h1 : (i + 1) * cs ≤ (N - 1) * cs :=
        Nat.mul_le_mul_right cs (by omega)
      have e : (i + 1) * cs = i * cs + cs := by ring
      omega
    · have hiN1 : i = N - 1 := by omega
      subst hiN1
      rw [hlast]
      omega
  have hinsub : insert i S ⊆ Finset.range N :=
    Finset.insert_subset (Finset.mem_range.mpr hiN) hinv.hsub
  have hrecv_bound :
      s.received_size_ + (payloads.getD i []).length ≤ total := by
    rw [hinv.hrecv]
    calc (∑ j ∈ S, (payloads.getD j []).length) + (payloads.getD i []).length
        = ∑ j ∈ insert i S, (payloads.getD j []).length := by
          rw [Finset.sum_insert hiS, Nat.add_comm]
      _ ≤ ∑ j ∈ Finset.range N, (payloads.getD j []).length :=
          Finset.sum_le_sum_of_subset hinsub
      _ = total := hsum
  have hcard : S.card ≤ N := by
    calc S.card ≤ (Finset.range N).card := Finset.card_le_card hinv.hsub
      _ = N := Finset.card_range N
  have ha := accept_spec s (mkChunk i (payloads.getD i [])) f m hinv.hstat
    hlen4 hf hm (by rw [hid16, hinv.hexp]; exact hiN)
    (by rw [hid16, hmS]; simp [hiS])
    (by rw [hid16, hinv.hcs]; omega)
    (by rw [hid16, hinv.hcs, hinv.htot, hlenc]; exact hfit)
    (by rw [hinv.htot]; omega)
    (by rw [hlenc]; omega)
    (by rw [hinv.hcnt]; omega)
    hinv.hch hinv.hen hinv.hesp
  obtain ⟨hbuf', hmap', hrecv', hcnt', htot', hcs', hexp', hch', hen',
    hesp', -, -, -, -, hcomp', hmid', -, -⟩ := ha
  rw [hid16] at hbuf' hmap'
  rw [hlenc] at hrecv'
  -- the updated buffer agrees with the payloads on every chunk of insert i S
  have hreg' : ∀ j ∈ insert i S, ∀ q < (payloads.getD j []).length,
      (writeRange f (i * s.chunk_size_) ((mkChunk i (payloads.getD i [])).drop
        DATA_HEADER_SIZE)) (j * cs + q) = (payloads.getD j []).get? q := by
    intro j hj q hq
    rw [hinv.hcs, mkChunk_drop]
    rcases Finset.mem_insert.mp hj with rfl | hjS
    · rw [writeRange_in f (j * cs) _ (j * cs + q) (Nat.le_add_right _ _)
        (by omega)]
      congr 1
      omega
    · have hne : j ≠ i := by
        rintro rfl
        exact hiS hjS
      rw [writeRange_out f (i * cs) _ (j * cs + q)
        (region_out cs (payloads.getD i []).length
          (payloads.getD j []).length i j q hne hq
          (hlen_le i hiN)
          (hlen_le j (Finset.mem_range.mp (hinv.hsub hjS))))]
      exact hfreg j hjS q hq
  constructor
  · -- middle step: invariant preserved
    intro hmidcard
    refine
      { hstat := hmid' (by rw [hinv.hcnt, hinv.hexp]; omega)
        htot := htot'.trans hinv.htot
        hcs := hcs'.trans hinv.hcs
        hexp := hexp'.trans hinv.hexp
        hbuf := ⟨_, hbuf', hreg'⟩
        hmap := ⟨_, hmap', ?_⟩
        hrecv := ?_
        hcnt := ?_
        hsub := hinsub
        hch := by rw [hch']; exact hinv.hch
        hen := by rw [hen']; exact hinv.hen
        hesp := by rw [hesp']; exact hinv.hesp }
    · intro j
      rcases eq_or_ne j i with rfl | hne
      · simp
      · simp [hne, hmS j, Finset.mem_insert, hne]
    · rw [hrecv', hinv.hrecv, Finset.sum_insert hiS, Nat.add_comm]
    · rw [hcnt', hinv.hcnt, Finset.card_insert_of_not_mem hiS]
  · -- final step: completion
    intro hlastcard
    have hSfull : insert i S = Finset.range N := by
      apply Finset.eq_of_subset_of_card_le hinsub
      rw [Finset.card_insert_of_not_mem hiS, hlastcard, Finset.card_range]
    refine ⟨hcomp' (by rw [hinv.hcnt, hinv.hexp]; omega), ?_, ⟨_, hbuf', ?_⟩⟩
    · rw [hrecv', hinv.hrecv]
      have hstep :
          (∑ j ∈ S, (payloads.getD j []).length)
              + (payloads.getD i []).length
            = ∑ j ∈ Finset.range N, (payloads.getD j []).length := by
        rw [← hSfull, Finset.sum_insert hiS, Nat.add_comm]
      rw [hstep, hsum]
    · intro p hp
      set j := p / cs with hj
      set q := p % cs with hq
      have hdm : cs * j + q = p := Nat.div_add_mod p cs
      have hjN : j < N := by
        rw [hj]
        exact (Nat.div_lt_iff_lt_mul (by omega)).mpr (lt_of_lt_of_le hp hub)
      have hqlen : q < (payloads.getD j []).length := by
        rcases Nat.lt_or_ge (j + 1) N with h | h
        · rw [hsz j h]
          exact Nat.mod_lt p (by omega)
        · have hjN1 : j = N - 1 := by omega
          have hA : cs * j = (N - 1) * cs := by rw [hjN1]; ring
          rw [hjN1, hlast]
          omega
      have hcover := hreg' j (hSfull ▸ Finset.mem_range.mpr hjN) q hqlen
      have hpj : j * cs + q = p := by rw [Nat.mul_comm]; exact hdm
      rw [← hpj]
      rw [hcover]
      have hjoin := join_get cs payloads j q
        (fun k hk => hsz k (by omega)) (by rw [hplen]; exact hjN) hqlen
      exact hjoin.symm

/-- Folding all outstanding chunks (in any order) through the handler from
an invariant state completes the transfer. -/
theorem c1_run (total cs N : Nat) (payloads : List (List Nat))
    (hN1 : 1 ≤ N) (hN2 : N ≤ 65535) (hcs1 : 1 ≤ cs)
    (htotmax : total ≤ MAX_TRANSFER_SIZE)
    (hplen : payloads.length = N)
    (hsz : ∀ k, k + 1 < N → (payloads.getD k []).length = cs)
    (hlast : (payloads.getD (N - 1) []).length = total - (N - 1) * cs)
    (hlb : (N - 1) * cs < total) (hub : total ≤ N * cs) :
    ∀ (rem done : List Nat) (s : Session),
      (done ++ rem).Perm (List.range N) → rem ≠ [] →
      C1Inv total cs N payloads done.toFinset s →
      ((rem.foldl (fun t i =>
          (handle_data_chunk t (mkChunk i (payloads.getD i []))).1) s).status_
        = Status.COMPLETE ∧
       (rem.foldl (fun t i =>
          (handle_data_chunk t (mkChunk i (payloads.getD i []))).1)
            s).received_size_ = total ∧
       ∃ f, (rem.foldl (fun t i =>
          (handle_data_chunk t (mkChunk i (payloads.getD i []))).1)
            s).image_buffer_ = some f ∧
         ∀ p, p < total → f p = payloads.join.get? p) := by
  intro rem
  induction rem with
  | nil =>
    intro done s _ hne _
    exact absurd rfl hne
  | cons i rest ih =>
    intro done s hperm hne hinv
    have hnodup : (done ++ i :: rest).Nodup :=
      (List.Perm.nodup_iff hperm).mpr (List.nodup_range N)
    have hiN : i < N := by
      have : i ∈ List.range N := hperm.mem_iff.mp (by simp)
      simpa using this
    have hidone : i ∉ done := by
      intro hmem
      have hdisj := (List.nodup_append.mp hnodup).2.2
      exact hdisj hmem (by simp)
    have hdnodup : done.Nodup := (List.nodup_append.mp hnodup).1
    have hcard : done.toFinset.card = done.length :=
      List.toFinset_card_of_nodup hdnodup
    have hstep := c1_step total cs N payloads done.toFinset s i hN1 hN2 hcs1
      htotmax hplen hsz hlast hlb hub hinv hiN (by simpa using hidone)
    rcases rest with _ | ⟨i2, rest2⟩
    · have hlen1 : done.length + 1 = N := by
        have := hperm.length_eq
        simpa using this
      exact hstep.2 (by omega)
    · have hlen2 : done.length + rest2.length + 2 = N := by
        have := hperm.length_eq
        simp [List.length_append] at this
        omega
      have hinv' := hstep.1 (by omega)
      have htf : (done ++ [i]).toFinset = insert i done.toFinset := by
        simp [List.toFinset_append, Finset.union_comm, Finset.insert_eq]
      rw [← htf] at hinv'
      have hperm' : ((done ++ [i]) ++ i2 :: rest2).Perm (List.range N) := by
        simpa [List.append_assoc] using hperm
      exact ih (done ++ [i]) _ hperm' (by simp) hinv'

/-- C1: for every valid triple `(total_size, chunk_size, expected_chunks)`
with `total_size ≤ MAX_TRANSFER_SIZE` and
`chunk_size ≤ MAX_MTU_SIZE - DATA_HEADER_SIZE`, a TRANSFER_INIT followed by
delivering each chunk id `0..expected_chunks-1` exactly once, in any order,
leaves the session in `COMPLETE` with `received_size_ = total_size` and the
buffer bytes equal to the concatenation of the chunk payloads in chunk-id
order. -/
theorem C1_transfer_completes (s0 : Session) (total cs N seq : Nat)
    (payloads : List (List Nat)) (perm : List Nat)
    (hN1 : 1 ≤ N) (hN2 : N ≤ 65535)
    (htot : total ≤ MAX_TRANSFER_SIZE) (hcs1 : 1 ≤ cs)
    (hcs2 : cs ≤ MAX_MTU_SIZE - DATA_HEADER_SIZE)
    (hplen : payloads.length = N)
    (hsz : ∀ k, k + 1 < N → (payloads.getD k []).length = cs)
    (hlast : (payloads.getD (N - 1) []).length = total - (N - 1) * cs)
    (hlb : (N - 1) * cs < total) (hub : total ≤ N * cs)
    (hperm : perm.Perm (List.range N))
    (hch : s0.control_char_handle_ ≠ 0)
    (hen : s0.control_notifications_enabled_ = true)
    (hesp : s0.esp_send_ok = true)
    (hma : s0.malloc_ok = true) (hca : s0.calloc_ok = true) :
    (perm.foldl (fun t i =>
        (handle_data_chunk t (mkChunk i (payloads.getD i []))).1)
      (handle_control_message s0 (mkInitMsg seq total cs N)).1).status_ =
        Status.COMPLETE ∧
    (perm.foldl (fun t i =>
        (handle_data_chunk t (mkChunk i (payloads.getD i []))).1)
      (handle_control_message s0
        (mkInitMsg seq total cs N)).1).received_size_ = total ∧
    ∃ f, (perm.foldl (fun t i =>
        (handle_data_chunk t (mkChunk i (payloads.getD i []))).1)
      (handle_control_message s0
        (mkInitMsg seq total cs N)).1).image_buffer_ = some f ∧
      ∀ p, p < total → f p = payloads.join.get? p := by
  have hmsg :
      handle_control_message s0 (mkInitMsg seq total cs N)
        = handle_transfer_init s0 (decodeControl (mkInitMsg seq total cs N)) :=
    rfl
  have hmax : MAX_TRANSFER_SIZE = 1048576 := rfl
  have hdec := decode_mkInitMsg seq total cs N (by omega)
    (by have : MAX_MTU_SIZE - DATA_HEADER_SIZE = 508 := rfl; omega)
    (by omega)
  rw [hmsg, hdec]
  have hinv0 := c1_init s0 total cs N payloads
    { command := 1
      sequence_number := le16_at (mkInitMsg seq total cs N) 1
      param1 := total
      param2 := cs
      param3 := N } rfl rfl rfl htot hcs2 hch hen hesp hma hca
  have hpne : perm ≠ [] := by
    intro h
    have := hperm.length_eq
    rw [h] at this
    simp at this
    omega
  have hrun := c1_run total cs N payloads hN1 hN2 hcs1 htot hplen hsz hlast
    hlb hub perm [] _ (by simpa using hperm) hpne hinv0
  exact hrun

/-- Witness for C1: the concrete valid triple `total = 3`, `chunk_size = 2`,
`expected_chunks = 2` with payloads `[0xFF, 0xD8]` and `[0x07]`, delivered
in the order 1, 0, completes with `received_size_ = 3` and the buffer equal
to the payload concatenation. -/
theorem C1_transfer_completes_witness :
    (([1, 0] : List Nat).foldl (fun t i =>
        (handle_data_chunk t
          (mkChunk i (([[255, 216], [7]] : List (List Nat)).getD i []))).1)
      (handle_control_message baseSession (mkInitMsg 0 3 2 2)).1).status_ =
        Status.COMPLETE ∧
    (([1, 0] : List Nat).foldl (fun t i =>
        (handle_data_chunk t
          (mkChunk i (([[255, 216], [7]] : List (List Nat)).getD i []))).1)
      (handle_control_message baseSession
        (mkInitMsg 0 3 2 2)).1).received_size_ = 3 ∧
    ∃ f, (([1, 0] : List Nat).foldl (fun t i =>
        (handle_data_chunk t
          (mkChunk i (([[255, 216], [7]] : List (List Nat)).getD i []))).1)
      (handle_control_message baseSession
        (mkInitMsg 0 3 2 2)).1).image_buffer_ = some f ∧
      ∀ p, p < 3 → f p = ([[255, 216], [7]] : List (List Nat)).join.get? p :=
  C1_transfer_completes baseSession 3 2 2 0 [[255, 216], [7]] [1, 0]
    (by decide) (by decide) (by decide) (by decide) (by decide) (by decide)
    (by intro k hk; rw [show k = 0 by omega]; rfl)
    (by decide) (by decide) (by decide)
    (List.Perm.swap 0 1 []) (by decide) (by decide) (by decide) (by decide)
    (by decide)

/-! ## Window-sequence lemmas (C5) -/

theorem chunkReqs_append (a b : List Effect) :
    chunkReqs (a ++ b) = chunkReqs a ++ chunkReqs b := by
  unfold chunkReqs
  exact List.filterMap_append a b _

theorem runChunks_nil (s : Session) (c : Nat → List Nat) :
    runChunks s [] c = (s, []) := rfl

theorem runChunks_acc (c : Nat → List Nat) :
    ∀ (ids : List Nat) (s : Session) (e0 : List Effect),
      ids.foldl
        (fun acc i =>
          let r := handle_data_chunk acc.1 (c i)
          (r.1, acc.2 ++ r.2))
        (s, e0)
      = ((runChunks s ids c).1, e0 ++ (runChunks s ids c).2) := by
  intro ids
  induction ids with
  | nil => intro s e0; simp [runChunks]
  | cons i rest ih =>
    intro s e0
    show rest.foldl _
      ((handle_data_chunk s (c i)).1, e0 ++ (handle_data_chunk s (c i)).2)
        = _
    rw [ih]
    have hr : runChunks s (i :: rest) c
        = rest.foldl
            (fun acc j =>
              let r := handle_data_chunk acc.1 (c j)
              (r.1, acc.2 ++ r.2))
            ((handle_data_chunk s (c i)).1,
              [] ++ (handle_data_chunk s (c i)).2) := rfl
    rw [hr, ih]
    simp

theorem runChunks_cons (s : Session) (i : Nat) (rest : List Nat)
    (c : Nat → List Nat) :
    runChunks s (i :: rest) c
      = ((runChunks (handle_data_chunk s (c i)).1 rest c).1,
         (handle_data_chunk s (c i)).2 ++
           (runChunks (handle_data_chunk s (c i)).1 rest c).2) := by
  have hr : runChunks s (i :: rest) c
      = rest.foldl
          (fun acc j =>
            let r := handle_data_chunk acc.1 (c j)
            (r.1, acc.2 ++ r.2))
          ((handle_data_chunk s (c i)).1,
            [] ++ (handle_data_chunk s (c i)).2) := rfl
  rw [hr, runChunks_acc]
  simp

/-- The windows from `start` tile `[start, N)` exactly. -/
theorem windowsFrom_bind (W N : Nat) (hW : 0 < W) :
    ∀ (fuel start : Nat), N - start ≤ fuel →
      (windowsFrom W N start).flatMap (fun w => List.range' w.1 w.2)
        = List.range' start (N - start) := by
  intro fuel
  induction fuel with
  | zero =>
    intro start hle
    rw [windowsFrom, dif_neg (by omega)]
    have h0 : N - start = 0 := by omega
    rw [h0]
    rfl
  | succ fuel ih =>
    intro start hle
    by_cases hlt : start < N
    · rw [windowsFrom, dif_pos ⟨hlt, hW⟩]
      have hmin1 : 1 ≤ min (N - start) W := le_min (by omega) hW
      have hminle : min (N - start) W ≤ N - start := Nat.min_le_left _ _
      simp only [List.flatMap_cons]
      rw [ih (start + min (N - start) W) (by omega)]
      rw [List.range'_append_1]
      congr 1
      omega
    · rw [windowsFrom, dif_neg (by omega)]
      have h0 : N - start = 0 := by omega
      rw [h0]
      rfl

/-- The windows from `start` are nonempty while `start < N`. -/
theorem windowsFrom_ne_nil (W N start : Nat) (hW : 0 < W)
    (hlt : start < N) : windowsFrom W N start ≠ [] := by
  rw [windowsFrom, dif_pos ⟨hlt, hW⟩]
  simp

/-- All windows except the last have size `W`, and the last has size
`(N - start) % W` (or `W` when `W` divides `N - start`). -/
theorem windowsFrom_sizes (W N : Nat) (hW : 0 < W) :
    ∀ (fuel start : Nat), N - start ≤ fuel → start < N →
      (∀ w ∈ (windowsFrom W N start).dropLast, w.2 = W) ∧
      (windowsFrom W N start).getLast?.map Prod.snd =
        some (if (N - start) % W = 0 then W else (N - start) % W) := by
  intro fuel
  induction fuel with
  | zero => intro start hle hlt; omega
  | succ fuel ih =>
    intro start hle hlt
    rw [windowsFrom, dif_pos ⟨hlt, hW⟩]
    by_cases hsmall : N - start ≤ W
    · have hmin : min (N - start) W = N - start := Nat.min_eq_left hsmall
      rw [hmin]
      have hstop : windowsFrom W N (start + (N - start)) = [] := by
        rw [windowsFrom, dif_neg (by omega)]
      rw [hstop]
      constructor
      · intro w hw
        simp at hw
      · rcases eq_or_lt_of_le hsmall with heq | hltW
        · rw [heq, Nat.mod_self, if_pos rfl]
          simp [heq]
        · rw [Nat.mod_eq_of_lt hltW, if_neg (by omega)]
          simp
    · have hmin : min (N - start) W = W :=
        Nat.min_eq_right (by omega)
      rw [hmin]
      have hlt' : start + W < N := by omega
      have hrec := ih (start + W) (by omega) hlt'
      have hne := windowsFrom_ne_nil W N (start + W) hW hlt'
      obtain ⟨y, t, hyt⟩ := List.exists_cons_of_ne_nil hne
      have hmod : (N - start) % W = (N - (start + W)) % W := by
        have e : N - start = W + (N - (start + W)) := by omega
        rw [e, Nat.add_mod_left]
      constructor
      · intro w hw
        rw [hyt] at hw
        rw [List.dropLast_cons₂] at hw
        rcases List.mem_cons.mp hw with rfl | hw2
        · rfl
        · have := hrec.1
          rw [hyt] at this
          exact this w hw2
      · rw [hyt, List.getLast?_cons_cons, ← hyt, hrec.2, hmod]

/-- Reset emits no chunk requests. -/
theorem chunkReqs_reset (s : Session) :
    chunkReqs (reset_transfer s).2 = [] := by
  unfold reset_transfer release_image_buffer
  rcases hbuf : s.image_buffer_ with _ | f <;>
    rcases hmap : s.chunk_received_map_ with _ | m <;>
      simp [hbuf, hmap] <;> rfl

/-- A valid TRANSFER_INIT establishes the in-order window invariant at
`k = 0` and emits exactly the first window request `(0, min N W)`. -/
theorem c5_init (s0 : Session) (total cs N W : Nat)
    (payloads : List (List Nat)) (msg : ControlMsg)
    (hm1 : msg.param1 = total) (hm2 : msg.param2 = cs) (hm3 : msg.param3 = N)
    (htot : total ≤ MAX_TRANSFER_SIZE)
    (hcs : cs ≤ MAX_MTU_SIZE - DATA_HEADER_SIZE)
    (hN1 : 1 ≤ N) (hN2 : N ≤ 65535)
    (hW0 : s0.chunks_per_request_ = W) (hW1 : 1 ≤ W) (hW2 : W ≤ 65535)
    (hch : s0.control_char_handle_ ≠ 0)
    (hen : s0.control_notifications_enabled_ = true)
    (hesp : s0.esp_send_ok = true)
    (hma : s0.malloc_ok = true) (hca : s0.calloc_ok = true) :
    C5Inv total cs N W payloads 0 (handle_transfer_init s0 msg).1 ∧
    (handle_transfer_init s0 msg).1.current_request_start_ = 0 ∧
    chunkReqs (handle_transfer_init s0 msg).2 = [(0, min N W)] := by
  have hminNW1 : 1 ≤ min N W := le_min hN1 hW1
  have hminNWle : min N W ≤ W := Nat.min_le_right _ _
  have hval : u16 (if N < W then N else W) = min N W := by
    unfold u16
    rw [Nat.min_def]
    split_ifs <;> omega
  unfold handle_transfer_init
  rw [if_neg (by rw [hm1]; exact not_lt.mpr htot),
      if_neg (by rw [hm2]; exact not_lt.mpr hcs)]
  simp only [reset_transfer_state, send_chunk_request_eq]
  rw [hma, if_pos rfl, hca, if_pos rfl]
  rw [hm3, hW0, hval]
  refine @ite_split (Session × List Effect) _ _ _ _
    (fun r => C5Inv total cs N W payloads 0 r.1 ∧
      r.1.current_request_start_ = 0 ∧
      chunkReqs r.2 = [(0, min N W)]) ?_ ?_
  rotate_left
  · intro hbad
    exfalso
    apply hbad
    simp [send_control_notification, hch, hen, hesp]
  intro hc
  dsimp only
  refine ⟨?_, ?_, ?_⟩
  · refine @ite_split Session _ _ _ _ (C5Inv total cs N W payloads 0) ?_ ?_
    rotate_left
    · intro hbad
      exact absurd hc hbad
    intro _
    refine
      { base :=
          { hstat := Or.inl rfl
            htot := hm1
            hcs := hm2
            hexp := rfl
            hbuf := ⟨fun _ => none, rfl, by simp⟩
            hmap := ⟨fun _ => false, rfl, by simp⟩
            hrecv := by simp
            hcnt := by simp
            hsub := by simp
            hch := hch
            hen := hen
            hesp := hesp }
        hW := rfl
        hwsk := Nat.le_refl 0
        hwe := ?_
        hcons := ?_
        hbatch := rfl }
    · show u16 (0 + min N W + 65535) = 0 + min (N - 0) W - 1
      unfold u16
      omega
    · show 0 - 0 < min (N - 0) W
      omega
  · refine @ite_split Session _ _ _ _
      (fun t => t.current_request_start_ = 0) ?_ ?_ <;> intro _ <;> rfl
  · rw [chunkReqs_append, chunkReqs_reset]
    rfl

/-- Window bookkeeping of the in-order delivery of chunk `k`
(image_service.cpp:647-690): while the current window has room the request
fields are unchanged and no CHUNK_REQUEST is emitted; when chunk `k` fills
the window and chunks remain, the next window
`(k+1, min (N-(k+1)) W)` is opened and exactly that request is emitted; at
completion no request is emitted. -/
theorem c5_window (total cs N W : Nat) (payloads : List (List Nat))
    (k : Nat) (s : Session)
    (hN1 : 1 ≤ N) (hN2 : N ≤ 65535)
    (htotmax : total ≤ MAX_TRANSFER_SIZE)
    (hplen : payloads.length = N)
    (hsz : ∀ j, j + 1 < N → (payloads.getD j []).length = cs)
    (hlast : (payloads.getD (N - 1) []).length = total - (N - 1) * cs)
    (hlb : (N - 1) * cs < total) (hub : total ≤ N * cs)
    (hW2 : W ≤ 65535)
    (hinv : C5Inv total cs N W payloads k s) (hkN : k < N) :
    (k + 1 < N →
      k + 1 = s.current_request_start_ +
          min (N - s.current_request_start_) W →
      (handle_data_chunk s
        (mkChunk k (payloads.getD k []))).1.current_request_start_ = k + 1 ∧
      (handle_data_chunk s
        (mkChunk k (payloads.getD k []))).1.current_request_end_ =
          k + 1 + min (N - (k + 1)) W - 1 ∧
      (handle_data_chunk s
        (mkChunk k (payloads.getD k []))).1.current_batch_received_ = 0 ∧
      (handle_data_chunk s
        (mkChunk k (payloads.getD k []))).1.chunks_per_request_ = W ∧
      chunkReqs (handle_data_chunk s (mkChunk k (payloads.getD k []))).2 =
        [(k + 1, min (N - (k + 1)) W)]) ∧
    (k + 1 < N →
      k + 1 < s.current_request_start_ +
          min (N - s.current_request_start_) W →
      (handle_data_chunk s
        (mkChunk k (payloads.getD k []))).1.current_request_start_ =
          s.current_request_start_ ∧
      (handle_data_chunk s
        (mkChunk k (payloads.getD k []))).1.current_request_end_ =
          s.current_request_end_ ∧
      (handle_data_chunk s
        (mkChunk k (payloads.getD k []))).1.current_batch_received_ =
          k - s.current_request_start_ + 1 ∧
      (handle_data_chunk s
        (mkChunk k (payloads.getD k []))).1.chunks_per_request_ = W ∧
      chunkReqs (handle_data_chunk s (mkChunk k (payloads.getD k []))).2 =
        []) ∧
    (N ≤ k + 1 →
      chunkReqs (handle_data_chunk s (mkChunk k (payloads.getD k []))).2 =
        []) := by
  obtain ⟨binv, hWf, hwsk, hwe, hcons, hbatch⟩ := hinv
  obtain ⟨f, hf, -⟩ := binv.hbuf
  obtain ⟨m, hm, hmS⟩ := binv.hmap
  have hmax : MAX_TRANSFER_SIZE = 1048576 := rfl
  have hws_lt : s.current_request_start_ < N := lt_of_le_of_lt hwsk hkN
  have hMleW : min (N - s.current_request_start_) W ≤ W :=
    Nat.min_le_right _ _
  have hMleN : min (N - s.current_request_start_) W
      ≤ N - s.current_request_start_ := Nat.min_le_left _ _
  have hM1 : 1 ≤ min (N - s.current_request_start_) W := by omega
  have hsum : ∑ j ∈ Finset.range N, (payloads.getD j []).length = total :=
    chunk_len_sum total cs N payloads hN1 hsz hlast hlb
  have hid16 : le16_at (mkChunk k (payloads.getD k [])) 0 = k :=
    le16_mkChunk_id k _ (by omega)
  have hlen4 : DATA_HEADER_SIZE ≤ (mkChunk k (payloads.getD k [])).length := by
    rw [mkChunk_length]
    simp [DATA_HEADER_SIZE]
  have hlenc : (mkChunk k (payloads.getD k [])).length - DATA_HEADER_SIZE
      = (payloads.getD k []).length := by
    rw [mkChunk_length]
    simp [DATA_HEADER_SIZE]
  have hfit : k * cs + (payloads.getD k []).length ≤ total := by
    rcases Nat.lt_or_ge (k + 1) N with h | h
    · rw [hsz k h]
      have h1 : (k + 1) * cs ≤ (N - 1) * cs :=
        Nat.mul_le_mul_right cs (by omega)
      have e : (k + 1) * cs = k * cs + cs := by ring
      omega
    · have hkN1 : k = N - 1 := by omega
      subst hkN1
      rw [hlast]
      omega
  have hiS : k ∉ Finset.range k := by simp
  have hinsub : insert k (Finset.range k) ⊆ Finset.range N :=
    Finset.insert_subset (Finset.mem_range.mpr hkN) binv.hsub
  have hrecv_bound :
      s.received_size_ + (payloads.getD k []).length ≤ total := by
    rw [binv.hrecv]
    calc (∑ j ∈ Finset.range k, (payloads.getD j []).length)
            + (payloads.getD k []).length
        = ∑ j ∈ insert k (Finset.range k), (payloads.getD j []).length := by
          rw [Finset.sum_insert hiS, Nat.add_comm]
      _ ≤ ∑ j ∈ Finset.range N, (payloads.getD j []).length :=
          Finset.sum_le_sum_of_subset hinsub
      _ = total := hsum
  have hdup : m (le16_at (mkChunk k (payloads.getD k [])) 0) = false := by
    rw [hid16, hmS]
    simp
  unfold handle_data_chunk
  rw [if_pos binv.hstat, if_neg (not_lt.mpr hlen4),
      if_neg (not_le.mpr (show le16_at (mkChunk k (payloads.getD k [])) 0
        < s.expected_chunks_ from by rw [hid16, binv.hexp]; exact hkN))]
  have hcond :
      (s.chunk_received_map_.map
        (fun mm => mm (le16_at (mkChunk k (payloads.getD k [])) 0))).getD false
        = false := by
    rw [hm]
    simpa using hdup
  simp only [hcond, Bool.false_eq_true, if_false]
  have hdl :
      (if le16_at (mkChunk k (payloads.getD k [])) 2
            ≠ (mkChunk k (payloads.getD k [])).length - DATA_HEADER_SIZE then
         (mkChunk k (payloads.getD k [])).length - DATA_HEADER_SIZE
       else le16_at (mkChunk k (payloads.getD k [])) 2)
        = (mkChunk k (payloads.getD k [])).length - DATA_HEADER_SIZE := by
    rcases eq_or_ne (le16_at (mkChunk k (payloads.getD k [])) 2)
      ((mkChunk k (payloads.getD k [])).length - DATA_HEADER_SIZE) with
      h | h <;> simp [h]
  rw [hdl, hlenc, hid16]
  rw [binv.hcs, binv.htot, binv.hexp, hWf, binv.hcnt, Finset.card_range,
      hbatch, hwe]
  rw [show u32 (k * cs) = k * cs from Nat.mod_eq_of_lt (by omega)]
  rw [show u32 (k * cs + (payloads.getD k []).length)
        = k * cs + (payloads.getD k []).length
      from Nat.mod_eq_of_lt (by omega)]
  rw [if_neg (not_lt.mpr hfit)]
  have hpay : ((mkChunk k (payloads.getD k [])).drop DATA_HEADER_SIZE).take
        (payloads.getD k []).length
      = (mkChunk k (payloads.getD k [])).drop DATA_HEADER_SIZE := by
    rw [mkChunk_drop]
    exact List.take_length _
  rw [hpay, hf, hm]
  simp only [Option.map_some']
  rw [show u32 (s.received_size_ + (payloads.getD k []).length)
        = s.received_size_ + (payloads.getD k []).length
      from Nat.mod_eq_of_lt (by omega)]
  rw [show u32 (k + 1) = k + 1 from Nat.mod_eq_of_lt (by omega)]
  rw [if_pos (show s.current_request_start_ ≤ k ∧
        k ≤ s.current_request_start_ +
          min (N - s.current_request_start_) W - 1 from ⟨hwsk, by omega⟩)]
  rw [show u16 (k - s.current_request_start_ + 1)
        = k - s.current_request_start_ + 1 from by unfold u16; omega]
  refine ⟨?_, ?_, ?_⟩
  · -- the window fills and chunks remain: the next window is opened
    intro hklt hadv
    rw [if_neg (show ¬ (N ≤ k + 1) from by omega)]
    rw [if_neg (show ¬ (N ≤ s.current_request_start_ +
          min (N - s.current_request_start_) W - 1) from by omega)]
    rw [show u16 (s.current_request_start_ +
            min (N - s.current_request_start_) W - 1 + 1
            - s.current_request_start_)
          = min (N - s.current_request_start_) W from by unfold u16; omega]
    rw [if_pos (show min (N - s.current_request_start_) W
            ≤ k - s.current_request_start_ + 1 ∧
          s.current_request_start_ +
            min (N - s.current_request_start_) W - 1 + 1 < N
        from ⟨by omega, by omega⟩)]
    rw [show u16 (s.current_request_start_ +
            min (N - s.current_request_start_) W - 1 + 1)
          = k + 1 from by unfold u16; omega]
    rw [show u16 (u32 (N - (k + 1))) = N - (k + 1) from by
      unfold u16 u32; omega]
    rw [show (if N - (k + 1) < W then N - (k + 1) else W)
          = min (N - (k + 1)) W from by rw [Nat.min_def]; split_ifs <;> omega]
    rw [send_chunk_request_eq]
    dsimp only
    rw [show u16 (k + 1 + min (N - (k + 1)) W + 65535)
          = k + 1 + min (N - (k + 1)) W - 1 from by
      have h1 : min (N - (k + 1)) W ≤ N - (k + 1) := Nat.min_le_left _ _
      unfold u16
      omega]
    refine ⟨?_, ?_, ?_, ?_, ?_⟩ <;>
      · split
        next hok => first | (rw [if_pos hok]; rfl) | rfl
        next hok => first | (rw [if_neg hok]; rfl) | rfl
  · -- the window still has room: request state untouched, nothing emitted
    intro hklt hlt2
    rw [if_neg (show ¬ (N ≤ k + 1) from by omega)]
    rw [if_neg (show ¬ (N ≤ s.current_request_start_ +
          min (N - s.current_request_start_) W - 1) from by omega)]
    rw [show u16 (s.current_request_start_ +
            min (N - s.current_request_start_) W - 1 + 1
            - s.current_request_start_)
          = min (N - s.current_request_start_) W from by unfold u16; omega]
    rw [if_neg (show ¬ (min (N - s.current_request_start_) W
            ≤ k - s.current_request_start_ + 1 ∧
          s.current_request_start_ +
            min (N - s.current_request_start_) W - 1 + 1 < N)
        from by omega)]
    exact ⟨rfl, rfl, rfl, rfl, rfl⟩
  · -- completion: only the ack, the callback and the close are emitted
    intro hge
    rw [if_pos hge]
    split <;> rfl

/-- Full step of the in-order C5 run: the invariant advances from `k` to
`k + 1`, the CHUNK_REQUEST effects are exactly the next window when chunk
`k` fills the current one, and the last chunk completes the transfer with
no further request. -/
theorem c5_step (total cs N W : Nat) (payloads : List (List Nat))
    (k : Nat) (s : Session)
    (hN1 : 1 ≤ N) (hN2 : N ≤ 65535) (hcs1 : 1 ≤ cs)
    (htotmax : total ≤ MAX_TRANSFER_SIZE)
    (hplen : payloads.length = N)
    (hsz : ∀ j, j + 1 < N → (payloads.getD j []).length = cs)
    (hlast : (payloads.getD (N - 1) []).length = total - (N - 1) * cs)
    (hlb : (N - 1) * cs < total) (hub : total ≤ N * cs)
    (hW2 : W ≤ 65535)
    (hinv : C5Inv total cs N W payloads k s) (hkN : k < N) :
    (k + 1 < N →
      k + 1 = s.current_request_start_ +
          min (N - s.current_request_start_) W →
      C5Inv total cs N W payloads (k + 1)
        (handle_data_chunk s (mkChunk k (payloads.getD k []))).1 ∧
      (handle_data_chunk s
        (mkChunk k (payloads.getD k []))).1.current_request_start_ = k + 1 ∧
      chunkReqs (handle_data_chunk s (mkChunk k (payloads.getD k []))).2 =
        [(k + 1, min (N - (k + 1)) W)]) ∧
    (k + 1 < N →
      k + 1 < s.current_request_start_ +
          min (N - s.current_request_start_) W →
      C5Inv total cs N W payloads (k + 1)
        (handle_data_chunk s (mkChunk k (payloads.getD k []))).1 ∧
      (handle_data_chunk s
        (mkChunk k (payloads.getD k []))).1.current_request_start_ =
          s.current_request_start_ ∧
      chunkReqs (handle_data_chunk s (mkChunk k (payloads.getD k []))).2 =
        []) ∧
    (k + 1 = N →
      (handle_data_chunk s
        (mkChunk k (payloads.getD k []))).1.status_ = Status.COMPLETE ∧
      chunkReqs (handle_data_chunk s (mkChunk k (payloads.getD k []))).2 =
        []) := by
  have hc1 := c1_step total cs N payloads (Finset.range k) s k hN1 hN2 hcs1
    htotmax hplen hsz hlast hlb hub hinv.base hkN (by simp)
  have hw := c5_window total cs N W payloads k s hN1 hN2 htotmax hplen hsz
    hlast hlb hub hW2 hinv hkN
  have hcard : (Finset.range k).card = k := Finset.card_range k
  have hW1 : 1 ≤ W := by
    have h1 := hinv.hcons
    have h2 := Nat.min_le_right (N - s.current_request_start_) W
    omega
  refine ⟨?_, ?_, ?_⟩
  · intro h1 h2
    obtain ⟨hws', hwe', hb', hcpr', hreq'⟩ := hw.1 h1 h2
    have hbase := hc1.1 (by rw [hcard]; exact h1)
    refine ⟨?_, hws', hreq'⟩
    refine
      { base := ?_
        hW := hcpr'
        hwsk := ?_
        hwe := ?_
        hcons := ?_
        hbatch := ?_ }
    · rw [Finset.range_succ]
      exact hbase
    · rw [hws']
    · rw [hwe', hws']
    · rw [hws']
      have h3 : 1 ≤ min (N - (k + 1)) W := le_min (by omega) hW1
      omega
    · rw [hws', hb']
      omega
  · intro h1 h2
    obtain ⟨hws', hwe', hb', hcpr', hreq'⟩ := hw.2.1 h1 h2
    have hbase := hc1.1 (by rw [hcard]; exact h1)
    refine ⟨?_, hws', hreq'⟩
    refine
      { base := ?_
        hW := hcpr'
        hwsk := ?_
        hwe := ?_
        hcons := ?_
        hbatch := ?_ }
    · rw [Finset.range_succ]
      exact hbase
    · rw [hws']
      exact le_trans hinv.hwsk (Nat.le_succ k)
    · rw [hwe', hws']
      exact hinv.hwe
    · rw [hws']
      have h3 := hinv.hwsk
      omega
    · rw [hb', hws']
      have h3 := hinv.hwsk
      omega
  · intro h3
    exact ⟨(hc1.2 (by rw [hcard]; exact h3)).1, hw.2.2 (by omega)⟩

/-- Running the in-order suffix `k, k+1, ..., N-1` from an invariant state
emits exactly the windows from the end of the current one. -/
theorem c5_run (total cs N W : Nat) (payloads : List (List Nat))
    (hN1 : 1 ≤ N) (hN2 : N ≤ 65535) (hcs1 : 1 ≤ cs)
    (htotmax : total ≤ MAX_TRANSFER_SIZE)
    (hplen : payloads.length = N)
    (hsz : ∀ j, j + 1 < N → (payloads.getD j []).length = cs)
    (hlast : (payloads.getD (N - 1) []).length = total - (N - 1) * cs)
    (hlb : (N - 1) * cs < total) (hub : total ≤ N * cs)
    (hW2 : W ≤ 65535) :
    ∀ (j k : Nat) (s : Session), k + j = N → 1 ≤ j →
      C5Inv total cs N W payloads k s →
      chunkReqs (runChunks s (List.range' k j)
          (fun i => mkChunk i (payloads.getD i []))).2
        = windowsFrom W N (s.current_request_start_ +
            min (N - s.current_request_start_) W) := by
  intro j
  induction j with
  | zero =>
    intro k s hkj h1 hinv
    exact absurd h1 (by omega)
  | succ j ih =>
    intro k s hkj hj1 hinv
    have hkN : k < N := by omega
    have hstep := c5_step total cs N W payloads k s hN1 hN2 hcs1 htotmax
      hplen hsz hlast hlb hub hW2 hinv hkN
    have hWpos : 0 < W := by
      have h1 := hinv.hcons
      have h2 := Nat.min_le_right (N - s.current_request_start_) W
      omega
    have hr : List.range' k (j + 1) = k :: List.range' (k + 1) j :=
      List.range'_succ k j 1
    rw [hr, runChunks_cons, chunkReqs_append]
    rcases Nat.eq_zero_or_pos j with hj0 | hjpos
    · subst hj0
      have hfin := hstep.2.2 (by omega)
      rw [show List.range' (k + 1) 0 = ([] : List Nat) from rfl,
          runChunks_nil, hfin.2]
      rw [windowsFrom, dif_neg (show ¬ (s.current_request_start_ +
            min (N - s.current_request_start_) W < N ∧ 0 < W) from by
        have h1 := hinv.hcons
        have h2 := hinv.hwsk
        omega)]
      rfl
    · have h2 : k + 1 < N := by omega
      have hle : k + 1 ≤ s.current_request_start_ +
          min (N - s.current_request_start_) W := by
        have h3 := hinv.hcons
        have h4 := hinv.hwsk
        omega
      rcases lt_or_eq_of_le hle with hlt | heq
      · obtain ⟨hinv', hws', hreq⟩ := hstep.2.1 h2 hlt
        rw [hreq, ih (k + 1) _ (by omega) (by omega) hinv', hws']
        simp
      · obtain ⟨hinv', hws', hreq⟩ := hstep.1 h2 heq
        rw [hreq, ih (k + 1) _ (by omega) (by omega) hinv', hws']
        rw [← heq]
        conv_rhs => rw [windowsFrom]
        rw [dif_pos ⟨h2, hWpos⟩]
        rfl

/-- C5: for every `expected_chunks = N ≥ 1` and window size `W ≥ 1`, the
sequence of CHUNK_REQUEST windows opened over a run that delivers every
requested chunk (a valid TRANSFER_INIT followed by the chunks in request
order) starts with `[0, min(W,N)-1]` and exactly tiles `[0, N-1]` into
consecutive ranges — no gaps, no overlaps — of size `W` except a final one
of size `N mod W` (or `W` when `W` divides `N`); in particular `N = 5`,
`W = 2` yields the windows `[0,1]`, `[2,3]`, `[4,4]`. -/
theorem C5_window_tiling (s0 : Session) (total cs N W seq : Nat)
    (payloads : List (List Nat))
    (hN1 : 1 ≤ N) (hN2 : N ≤ 65535)
    (htot : total ≤ MAX_TRANSFER_SIZE) (hcs1 : 1 ≤ cs)
    (hcs2 : cs ≤ MAX_MTU_SIZE - DATA_HEADER_SIZE)
    (hplen : payloads.length = N)
    (hsz : ∀ j, j + 1 < N → (payloads.getD j []).length = cs)
    (hlast : (payloads.getD (N - 1) []).length = total - (N - 1) * cs)
    (hlb : (N - 1) * cs < total) (hub : total ≤ N * cs)
    (hW0 : s0.chunks_per_request_ = W) (hW1 : 1 ≤ W) (hW2 : W ≤ 65535)
    (hch : s0.control_char_handle_ ≠ 0)
    (hen : s0.control_notifications_enabled_ = true)
    (hesp : s0.esp_send_ok = true)
    (hma : s0.malloc_ok = true) (hca : s0.calloc_ok = true) :
    chunkReqs ((handle_control_message s0 (mkInitMsg seq total cs N)).2 ++
        (runChunks (handle_control_message s0 (mkInitMsg seq total cs N)).1
          (List.range N) (fun i => mkChunk i (payloads.getD i []))).2)
      = windows N W ∧
    (windows N W).head? = some (0, min W N) ∧
    (windows N W).flatMap (fun w => List.range' w.1 w.2) = List.range N ∧
    (∀ w ∈ (windows N W).dropLast, w.2 = W) ∧
    (windows N W).getLast?.map Prod.snd
      = some (if N % W = 0 then W else N % W) ∧
    windows 5 2 = [(0, 2), (2, 2), (4, 1)] := by
  have hmsg :
      handle_control_message s0 (mkInitMsg seq total cs N)
        = handle_transfer_init s0 (decodeControl (mkInitMsg seq total cs N)) :=
    rfl
  have hmax : MAX_TRANSFER_SIZE = 1048576 := rfl
  have hdec := decode_mkInitMsg seq total cs N (by omega)
    (by have : MAX_MTU_SIZE - DATA_HEADER_SIZE = 508 := rfl; omega)
    (by omega)
  rw [hmsg, hdec]
  obtain ⟨hinv0, hws0, hreq0⟩ := c5_init s0 total cs N W payloads
    { command := 1
      sequence_number := le16_at (mkInitMsg seq total cs N) 1
      param1 := total
      param2 := cs
      param3 := N } rfl rfl rfl htot hcs2 hN1 hN2 hW0 hW1 hW2 hch hen hesp
    hma hca
  have hrun := c5_run total cs N W payloads hN1 hN2 hcs1 htot hplen hsz hlast
    hlb hub hW2 N 0 _ (by omega) hN1 hinv0
  rw [hws0] at hrun
  refine ⟨?_, ?_, ?_, ?_, ?_, ?_⟩
  · rw [chunkReqs_append, hreq0, List.range_eq_range', hrun, windows]
    conv_rhs => rw [windowsFrom]
    rw [dif_pos ⟨by omega, by omega⟩]
    simp
  · rw [windows, windowsFrom, dif_pos ⟨by omega, by omega⟩]
    simp [Nat.min_comm]
  · rw [windows, windowsFrom_bind W N (by omega) N 0 (by omega),
        List.range_eq_range']
    simp
  · intro w hw
    rw [windows] at hw
    exact (windowsFrom_sizes W N (by omega) N 0 (by omega) (by omega)).1 w hw
  · rw [windows]
    have h := (windowsFrom_sizes W N (by omega) N 0 (by omega) (by omega)).2
    simpa using h
  · have e1 : windowsFrom 2 5 0 = (0, 2) :: windowsFrom 2 5 2 := by
      rw [windowsFrom]
      rfl
    have e2 : windowsFrom 2 5 2 = (2, 2) :: windowsFrom 2 5 4 := by
      rw [windowsFrom]
      rfl
    have e3 : windowsFrom 2 5 4 = (4, 1) :: windowsFrom 2 5 5 := by
      rw [windowsFrom]
      rfl
    have e4 : windowsFrom 2 5 5 = [] := by
      rw [windowsFrom]
      rfl
    rw [windows, e1, e2, e3, e4]

/-- Witness for C5: the concrete run `total = 10`, `chunk_size = 2`,
`expected_chunks = 5`, window size `W = 2`: the requests emitted by the
init and the in-order delivery of chunks 0..4 are exactly the windows
`(0,2), (2,2), (4,1)`, i.e. `[0,1], [2,3], [4,4]`. -/
theorem C5_window_tiling_witness :
    chunkReqs ((handle_control_message
          { baseSession with chunks_per_request_ := 2 }
          (mkInitMsg 7 10 2 5)).2 ++
        (runChunks (handle_control_message
            { baseSession with chunks_per_request_ := 2 }
            (mkInitMsg 7 10 2 5)).1
          (List.range 5)
          (fun i => mkChunk i
            (([[255, 216], [3, 4], [5, 6], [7, 8], [9, 10]] :
                List (List Nat)).getD i []))).2)
      = windows 5 2 ∧
    (windows 5 2).head? = some (0, min 2 5) ∧
    (windows 5 2).flatMap (fun w => List.range' w.1 w.2) = List.range 5 ∧
    (∀ w ∈ (windows 5 2).dropLast, w.2 = 2) ∧
    (windows 5 2).getLast?.map Prod.snd
      = some (if 5 % 2 = 0 then 2 else 5 % 2) ∧
    windows 5 2 = [(0, 2), (2, 2), (4, 1)] :=
  C5_window_tiling { baseSession with chunks_per_request_ := 2 } 10 2 5 2 7
    [[255, 216], [3, 4], [5, 6], [7, 8], [9, 10]]
    (by decide) (by decide) (by decide) (by decide) (by decide) (by decide)
    (by intro j hj
        have hj4 : j < 4 := by omega
        clear hj
        interval_cases j <;> rfl)
    (by decide) (by decide) (by decide)
    rfl (by decide) (by decide)
    (by decide) (by decide) (by decide) (by decide) (by decide)

end BLETinyFlow
